import Mathlib

/-
Verification development for the F1 data-platform repository
(Scrapping/Scrapping_Agregation_Nettoyage.py and
Base_de_données/f1_data_analysis.py).

The Python source is shallowly embedded: JSON documents become an inductive
`JValue`, the tenacity retry decorator becomes an explicit retry runner that
records attempts and waits, the on-disk cache becomes an association list of
paths to file contents with `DataCache.set` modelled as a trace of primitive
file-system operations, and the MySQL loader becomes a fold of per-statement
mutations over an explicit connection state (committed database + pending
transaction).
-/

namespace F1

/-- JSON documents as returned by `response.json()` / stored in the cache.
Numbers carry an `Int` payload; none of the verified operations compute on
the numeric value, they only move it around, so the payload type is
irrelevant to every theorem below. -/
inductive JValue : Type where
  | null : JValue
  | bool : Bool → JValue
  | num : Int → JValue
  | str : String → JValue
  | arr : List JValue → JValue
  | obj : List (String × JValue) → JValue

/-- Key lookup in the association list backing a JSON object. -/
def jLookup : List (String × JValue) → String → Option JValue
  | [], _ => none
  | (k, v) :: rest, key => if k = key then some v else jLookup rest key

/-- Is `needle` a contiguous run inside `hay`? -/
def listIsInfixOf (needle : List Char) : List Char → Bool
  | [] => needle.isEmpty
  | c :: rest => needle.isPrefixOf (c :: rest) || listIsInfixOf needle rest

/-- Substring test, mirroring Python's `needle in haystack` on strings. -/
def strContains (hay needle : String) : Bool :=
  listIsInfixOf needle.data hay.data

/-- Python's `key in value` for a string key: membership in a dict's keys,
membership in a list, substring of a string; on other values `in` raises
TypeError, modelled as `none`. -/
def pyContains : JValue → String → Option Bool
  | .obj kvs, key => some (jLookup kvs key).isSome
  | .arr xs, key => some (xs.any (fun x => match x with
      | .str s => s = key
      | _ => false))
  | .str s, key => some (strContains s key)
  | _, _ => none

/-- Python's `value[key]` for a string key: dict lookup; on every other
value (list, string, scalar) subscripting by a string raises TypeError,
modelled as `none` (a missing dict key, KeyError, is also `none`). -/
def pySubscriptStr : JValue → String → Option JValue
  | .obj kvs, key => jLookup kvs key
  | _, _ => none

/-- Python's `value[i]` for a non-negative integer index: list indexing;
out of range (IndexError) or non-list (TypeError) is `none`. -/
def pySubscriptIdx : JValue → Nat → Option JValue
  | .arr xs, i => xs.get? i
  | _, _ => none

/-! ## The tenacity retry decorator

`@retry(stop=stop_after_attempt(n), wait=wait_exponential(multiplier=m, min=lo, max=hi))`
re-runs the wrapped call until it succeeds or `n` attempts have been made,
sleeping between attempts.  Attempts are numbered from 1; after failed
attempt `k` (when another attempt remains) tenacity sleeps
`max (max 0 lo) (min (m * 2 ^ (k - 1)) hi)` seconds (`wait_exponential`
with its default exponent base 2). -/

/-- Transport-level failure (requests.exceptions.RequestException,
DataExtractionError, ... ): anything the retry decorator retries on. -/
structure NetErr : Type where
  msg : String
deriving DecidableEq

/-- The wrapped error surfaced by the Python code after the retry decorator
or the enclosing `except` handler: `APIError` carries a message. -/
structure APIErr : Type where
  msg : String
deriving DecidableEq

/-- Parameters of one `@retry(...)` decoration. -/
structure RetryPolicy : Type where
  stopAfterAttempt : Nat
  waitMultiplier : ℚ
  waitMin : ℚ
  waitMax : ℚ

/-- The sleep tenacity's `wait_exponential` performs after failed attempt
number `attempt` (1-based): `max(max(0, min), min(multiplier * 2^(attempt-1), max))`. -/
def tenacityWait (pol : RetryPolicy) (attempt : Nat) : ℚ :=
  max (max 0 pol.waitMin) (min (pol.waitMultiplier * 2 ^ (attempt - 1)) pol.waitMax)

/-- Observable outcome of running a retry-decorated call: how many attempts
were made, the sleeps performed between attempts (in order), and the final
result (`Except.error` = the decorator gave up; the last attempt's error). -/
structure RetryOutcome (ε α : Type) : Type where
  attempts : Nat
  waits : List ℚ
  result : Except ε α

/-- One execution of the retry loop.  `transport k` is the outcome of the
k-th attempt of the wrapped body (attempts numbered from 1); `remaining` is
how many attempts may still be made. -/
def runRetryAux (pol : RetryPolicy) (transport : Nat → Except NetErr α)
    (attempt : Nat) : Nat → RetryOutcome NetErr α
  | 0 => ⟨0, [], .error ⟨"no attempt permitted"⟩⟩
  | remaining + 1 =>
    match transport attempt with
    | .ok a => ⟨1, [], .ok a⟩
    | .error e =>
      if remaining = 0 then ⟨1, [], .error e⟩
      else
        let rest := runRetryAux pol transport (attempt + 1) remaining
        ⟨rest.attempts + 1, tenacityWait pol attempt :: rest.waits, rest.result⟩

/-- Run a retry-decorated call from attempt 1. -/
def runRetry (pol : RetryPolicy) (transport : Nat → Except NetErr α) :
    RetryOutcome NetErr α :=
  runRetryAux pol transport 1 pol.stopAfterAttempt

/-- The decoration on `ErgastAPI._api_call_with_retry` and
`OpenMeteoAPI._api_call_with_retry`:
`@retry(stop=stop_after_attempt(3), wait=wait_exponential(multiplier=2, min=4, max=30))`.
Note the literals are hardcoded at the decoration site; the `max_retries`
and `retry_wait_*` values read from the configuration in `__init__` are
stored on the object but never consulted here. -/
def api_call_retry_policy : RetryPolicy :=
  ⟨3, 2, 4, 30⟩

/-! ## Configuration and the Ergast / Open-Meteo API clients -/

/-- The `[apis]` section of the configuration as seen through
`ConfigManager.get_int` / `get_float` with fallbacks: `none` means the
option is absent and the fallback passed at the call site applies. -/
structure ApisConfig : Type where
  ergast_base_url : String
  openmeteo_base_url : String
  max_retries : Option Nat
  retry_wait_multiplier : Option ℚ
  retry_wait_min : Option ℚ
  retry_wait_max : Option ℚ

/-- Object state of `ErgastAPI` after `__init__` (the fields read from the
configuration, with the fallbacks used at the call sites). -/
structure ErgastAPI : Type where
  base_url : String
  max_retries : Nat
  retry_wait_multiplier : ℚ
  retry_wait_min : ℚ
  retry_wait_max : ℚ

/-- `ErgastAPI.__init__`: reads the base url and the retry options with
fallbacks 3, 2, 4, 30. -/
def ErgastAPI.init (cfg : ApisConfig) : ErgastAPI :=
  ⟨cfg.ergast_base_url, cfg.max_retries.getD 3, cfg.retry_wait_multiplier.getD 2,
    cfg.retry_wait_min.getD 4, cfg.retry_wait_max.getD 30⟩

/-- The endpoint built by `get_season_data`: `f"{self.base_url}/{year}.json"`. -/
def ErgastAPI.season_url (api : ErgastAPI) (year : Int) : String :=
  api.base_url ++ "/" ++ toString year ++ ".json"

/-- `ErgastAPI._api_call_with_retry` on the season endpoint: the retry
decorator with the hardcoded policy around one GET per attempt. -/
def ErgastAPI.api_call_with_retry (_api : ErgastAPI)
    (transport : Nat → Except NetErr JValue) : RetryOutcome NetErr JValue :=
  runRetry api_call_retry_policy transport

/-- The validation in `get_season_data`:
`if 'MRData' not in result or 'RaceTable' not in result['MRData']: raise APIError(...)`.
Both a check that evaluates to "invalid" and a TypeError raised by `in` /
subscripting on an unexpected value class end in the same observable
outcome — the enclosing `except` turns it into `APIError` — so all those
paths are `false` here. -/
def season_shape_ok (result : JValue) : Bool :=
  match pyContains result "MRData" with
  | none => false
  | some false => false
  | some true =>
    match pySubscriptStr result "MRData" with
    | none => false
    | some mrdata => (pyContains mrdata "RaceTable").getD false

/-- `ErgastAPI.get_season_data(year)`: one retry-decorated fetch of
`{base_url}/{year}.json`, then the envelope validation; any failure
(exhausted retries or invalid shape) is wrapped into `APIError` by the
enclosing `except`.  Returns both the observable retry trace and the
final result.  The body performs no cache read and no cache write. -/
def ErgastAPI.get_season_data (api : ErgastAPI)
    (transport : Nat → Except NetErr JValue) (_year : Int) :
    RetryOutcome NetErr JValue × Except APIErr JValue :=
  let out := api.api_call_with_retry transport
  (out,
    match out.result with
    | .ok result =>
      if season_shape_ok result then .ok result
      else .error ⟨"invalid season data format"⟩
    | .error _ => .error ⟨"season fetch failed"⟩)

/-- Object state of `OpenMeteoAPI` after `__init__`. -/
structure OpenMeteoAPI : Type where
  base_url : String
  max_retries : Nat
  retry_wait_multiplier : ℚ
  retry_wait_min : ℚ
  retry_wait_max : ℚ

/-- `OpenMeteoAPI.__init__`: same option reads and fallbacks as `ErgastAPI`. -/
def OpenMeteoAPI.init (cfg : ApisConfig) : OpenMeteoAPI :=
  ⟨cfg.openmeteo_base_url, cfg.max_retries.getD 3, cfg.retry_wait_multiplier.getD 2,
    cfg.retry_wait_min.getD 4, cfg.retry_wait_max.getD 30⟩

/-- The query parameters `get_weather_data` builds (dates as day numbers:
`start_date` is the race date, `end_date` is `date + timedelta(days=1)`). -/
structure WeatherParams : Type where
  latitude : ℚ
  longitude : ℚ
  start_date : Int
  end_date : Int
  hourly : List String

/-- The `hourly` series requested by `get_weather_data`, in source order. -/
def weather_hourly_fields : List String :=
  ["temperature_2m", "relative_humidity_2m", "precipitation",
   "wind_speed_10m", "wind_direction_10m", "surface_pressure"]

/-- The parameter dict built at the top of `get_weather_data`. -/
def weather_params (lat lon : ℚ) (date : Int) : WeatherParams :=
  ⟨lat, lon, date, date + 1, weather_hourly_fields⟩

/-- The flat record `get_weather_data` returns. -/
structure WeatherRecord : Type where
  temperature : JValue
  humidity : JValue
  wind_speed : JValue
  wind_direction : JValue
  precipitation : JValue
  pressure : JValue

/-- `race_hour = 14`: the fixed hour index used to slice every hourly series. -/
def race_hour : Nat := 14

/-- `hourly_data[field][hour_index]`: dict lookup then list index; a missing
key (KeyError), a non-list series (TypeError) or a series shorter than 15
entries (IndexError) all come out as `none`. -/
def hourlyAt (hourly_data : JValue) (field : String) : Option JValue :=
  (pySubscriptStr hourly_data field).bind fun series => pySubscriptIdx series race_hour

/-- The extraction block of `get_weather_data`: `result['hourly']` then the
six per-field accesses at index `race_hour`, in the order the source builds
the `weather_data` dict.  `none` models any raised KeyError / IndexError /
TypeError, which the enclosing `except` turns into `APIError`. -/
def extract_race_hour_data (result : JValue) : Option WeatherRecord := do
  let hourly_data ← pySubscriptStr result "hourly"
  let t ← hourlyAt hourly_data "temperature_2m"
  let h ← hourlyAt hourly_data "relative_humidity_2m"
  let ws ← hourlyAt hourly_data "wind_speed_10m"
  let wd ← hourlyAt hourly_data "wind_direction_10m"
  let p ← hourlyAt hourly_data "precipitation"
  let pr ← hourlyAt hourly_data "surface_pressure"
  return ⟨t, h, ws, wd, p, pr⟩

/-- `OpenMeteoAPI.get_weather_data(lat, lon, date)`: builds the params for
the inclusive day range, performs the retry-decorated call, extracts the
race-hour slice of each series; every failure becomes `APIError`. -/
def OpenMeteoAPI.get_weather_data (_api : OpenMeteoAPI)
    (transport : WeatherParams → Nat → Except NetErr JValue)
    (lat lon : ℚ) (date : Int) :
    WeatherParams × RetryOutcome NetErr JValue × Except APIErr WeatherRecord :=
  let params := weather_params lat lon date
  let out := runRetry api_call_retry_policy (transport params)
  (params, out,
    match out.result with
    | .ok result =>
      match extract_race_hour_data result with
      | some w => .ok w
      | none => .error ⟨"weather extraction failed"⟩
    | .error _ => .error ⟨"weather fetch failed"⟩)

/-! ## The page fetcher (F1Scraper) -/

/-- Object state of `F1Scraper` after `__init__`. -/
structure F1Scraper : Type where
  use_playwright : Bool
  headless : Bool
  user_agent_rotation : Bool
  min_delay : ℚ
  max_delay : ℚ

/-- The decoration on `_fetch_with_playwright`:
`@retry(stop=stop_after_attempt(3), wait=wait_exponential(multiplier=1, min=4, max=10))`. -/
def playwright_retry_policy : RetryPolicy :=
  ⟨3, 1, 4, 10⟩

/-- The decoration on `_fetch_with_requests`:
`@retry(stop=stop_after_attempt(3), wait=wait_exponential(multiplier=1, min=2, max=10))`. -/
def requests_retry_policy : RetryPolicy :=
  ⟨3, 1, 2, 10⟩

/-- `_fetch_with_playwright`: per attempt, a browser fetch that on success
yields the page content together with the politeness wait performed before
content extraction (`page.wait_for_timeout` of `_get_random_delay()`
seconds, `draw k` being the value `random.uniform(min_delay, max_delay)`
sampled on attempt `k`); any raised `DataExtractionError` makes the
decorator retry, and exhaustion surfaces as an error, never as a value. -/
def F1Scraper.fetch_with_playwright (_s : F1Scraper)
    (transport : Nat → Except NetErr String) (draw : Nat → ℚ) :
    RetryOutcome NetErr (String × ℚ) :=
  runRetry playwright_retry_policy
    (fun k => (transport k).map fun html => (html, draw k))

/-- `_fetch_with_requests`: per attempt, an HTTP GET that on success sleeps
the politeness delay (`time.sleep(self._get_random_delay())`) and returns
`response.text`; failures raise `DataExtractionError` and the decorator
retries, exhaustion surfaces as an error. -/
def F1Scraper.fetch_with_requests (_s : F1Scraper)
    (transport : Nat → Except NetErr String) (draw : Nat → ℚ) :
    RetryOutcome NetErr (String × ℚ) :=
  runRetry requests_retry_policy
    (fun k => (transport k).map fun html => (html, draw k))

/-- `F1Scraper.fetch_page(url)`: dispatches on `use_playwright` to one of
the two backends.  The successful value of either backend is the page text
(paired here with the politeness delay performed); both backends propagate
an exception when their three attempts are exhausted. -/
def F1Scraper.fetch_page (s : F1Scraper)
    (transport : Nat → Except NetErr String) (draw : Nat → ℚ) :
    RetryOutcome NetErr (String × ℚ) :=
  if s.use_playwright then s.fetch_with_playwright transport draw
  else s.fetch_with_requests transport draw

/-! ## The on-disk cache (DataCache)

The file system is a flat association list of absolute path → file content.
A file content is either a well-formed JSON document (what `json.dump`
produced and `json.load` parses back) or raw bytes that do not parse. -/

/-- Content of one file: a parsable JSON document or unparsable bytes. -/
inductive FileContent : Type where
  | json : JValue → FileContent
  | raw : String → FileContent

/-- A file system: finitely many files, identified by path. -/
abbrev FS := List (String × FileContent)

/-- Read a file (first entry for the path wins). -/
def FS.read : FS → String → Option FileContent
  | [], _ => none
  | (p, c) :: rest, path => if p = path then some c else FS.read rest path

/-- Remove every entry at `path`. -/
def FS.erase (fs : FS) (path : String) : FS :=
  fs.filter fun e => !(e.1 = path)

/-- Create or overwrite the file at `path`. -/
def FS.write (fs : FS) (path : String) (c : FileContent) : FS :=
  (path, c) :: fs.erase path

/-- `shutil.move(src, dst)` for `src` and `dst` on one filesystem:
`os.rename`, one atomic step that installs the source's content at the
destination and unlinks the source. -/
def FS.move (fs : FS) (src dst : String) : FS :=
  match fs.read src with
  | some c => (fs.erase src).write dst c
  | none => fs

/-- Does a file exist at `path`? -/
def FS.fileExists (fs : FS) (path : String) : Bool :=
  (fs.read path).isSome

/-- Directory part of a path: everything before the last `/` (empty when
the path has no `/`). -/
def dirOf (p : String) : String :=
  ⟨((p.data.reverse.dropWhile fun ch => !(ch = '/')).drop 1).reverse⟩

/-- Last component of a path: everything after the last `/`. -/
def baseName (p : String) : String :=
  ⟨(p.data.reverse.takeWhile fun ch => !(ch = '/')).reverse⟩

/-- Object state of `DataCache` after `__init__` (the configured
`general.cache_dir`). -/
structure DataCache : Type where
  cache_dir : String

/-- `self.cache_dir / f"{key}.json"`: the cache file for a key. -/
def DataCache.filePath (c : DataCache) (key : String) : String :=
  c.cache_dir ++ "/" ++ key ++ ".json"

/-- `DataCache.get(key)`: read and parse the cache file; a missing file or
a file that fails to parse is absence (`None`), never an exception. -/
def DataCache.get (c : DataCache) (fs : FS) (key : String) : Option JValue :=
  match fs.read (c.filePath key) with
  | some (.json v) => some v
  | some (.raw _) => none
  | none => none

/-- Path of the temporary file created by
`tempfile.NamedTemporaryFile(mode='w', delete=False, encoding='utf-8')` in
`DataCache.set`.  The call passes no `dir=` argument, so the file lives in
the process's system temporary directory (`tempfile.gettempdir()`), which
is chosen independently of `cache_dir`. -/
def namedTempPath (tempDir name : String) : String :=
  tempDir ++ "/" ++ name

/-- The primitive file-system operations `DataCache.set` performs. -/
inductive FsOp : Type where
  | create : String → FsOp
  | write : String → FileContent → FsOp
  | move : String → String → FsOp

/-- Effect of one primitive operation. -/
def FS.applyOp (fs : FS) : FsOp → FS
  | .create p => fs.write p (.raw "")
  | .write p c => fs.write p c
  | .move src dst => fs.move src dst

/-- Effect of a sequence of operations. -/
def FS.applyOps (fs : FS) : List FsOp → FS
  | [] => fs
  | op :: rest => (fs.applyOp op).applyOps rest

/-- The operation sequence of a fully successful `DataCache.set(key, data)`:
create the named temporary file (empty), serialize `data` into it
(`json.dump`), then `shutil.move` it onto `cache_dir/key.json`. -/
def DataCache.setOps (c : DataCache) (tmpPath key : String) (data : JValue) :
    List FsOp :=
  [.create tmpPath, .write tmpPath (.json data), .move tmpPath (c.filePath key)]

/-- A crash (process killed, power loss) during `DataCache.set`: the first
`k` primitive operations have reached the disk, nothing else ran. -/
def DataCache.set_crash (c : DataCache) (fs : FS) (tmpPath key : String)
    (data : JValue) (k : Nat) : FS :=
  fs.applyOps ((c.setOps tmpPath key data).take k)

/-- `DataCache.set(key, data)` with an injected exception.  `failAt none`
is the successful run.  `failAt (some i)` means primitive operation `i`
raised: the `except` block always absorbs the exception (set returns
normally in every case), and it unlinks the temporary file only when
`'temp_name' in locals()` — `temp_name = tf.name` is assigned after
`json.dump` returns, so a failure while creating the temporary file (i = 0)
or while serializing into it (i = 1) skips the cleanup, while a failure in
`shutil.move` (i = 2, atomic, destination untouched) is followed by
`os.unlink(temp_name)`.  For i = 1 the partially serialized bytes remain in
the temporary file (their exact prefix is immaterial; the file exists). -/
def DataCache.set_run (c : DataCache) (fs : FS) (tmpPath key : String)
    (data : JValue) (failAt : Option (Fin 3)) : FS :=
  match failAt with
  | none => c.set_crash fs tmpPath key data 3
  | some i =>
    if i.val ≤ 1 then c.set_crash fs tmpPath key data i.val
    else (c.set_crash fs tmpPath key data 2).erase tmpPath

/-- fnmatch-style glob matching over characters, with explicit fuel so the
recursion is structural: `*` matches any run, `?` any one character,
anything else itself (the repository's cache keys and patterns use no
`[...]` classes, which are not modelled).  Every step consumes at least one
character of the pattern or the name, so fuel beyond their combined length
is never exhausted. -/
def fnmatchFuel : Nat → List Char → List Char → Bool
  | 0, _, _ => false
  | _ + 1, [], [] => true
  | fuel + 1, '*' :: ps, [] => fnmatchFuel fuel ps []
  | fuel + 1, '*' :: ps, ch :: cs =>
    fnmatchFuel fuel ps (ch :: cs) || fnmatchFuel fuel ('*' :: ps) cs
  | fuel + 1, '?' :: _ps, _ :: cs => fnmatchFuel fuel _ps cs
  | fuel + 1, p :: ps, ch :: cs => p = ch && fnmatchFuel fuel ps cs
  | _ + 1, _ :: _, [] => false
  | _ + 1, [], _ :: _ => false

/-- fnmatch over chars with adequate fuel. -/
def fnmatchChars (pat s : List Char) : Bool :=
  fnmatchFuel (pat.length + s.length + 1) pat s

/-- One-component `pathlib.Path.glob` matching: fnmatch semantics on the
file name.  Unlike the `glob.glob` module function, `pathlib.Path.glob`
applies no hidden-file exclusion: a wildcard pattern such as `*.json`
also matches names beginning with a dot. -/
def pathGlobMatch (pat name : String) : Bool :=
  fnmatchChars pat.data name.data

/-- Does `DataCache.clear(pattern)` select this file?  The source lists
`cache_dir.glob(f"{pattern}.json")` (or `"*.json"` with no pattern): files
directly in the cache directory whose name matches the glob. -/
def DataCache.clearSelects (c : DataCache) (pattern : Option String)
    (path : String) : Bool :=
  let pat := match pattern with
    | some p => p ++ ".json"
    | none => "*.json"
  dirOf path = c.cache_dir && pathGlobMatch pat (baseName path)

/-- `DataCache.clear(pattern)`: unlink every selected file, count them and
log the count.  The function body has no `return` statement, so its Python
return value is `None` — modelled by the `Option Nat` component, which is
always `none`.  The count that is computed and logged is exposed separately
by `clear_removed_count`. -/
def DataCache.clear (c : DataCache) (fs : FS) (pattern : Option String) :
    FS × Option Nat :=
  (fs.filter (fun e => !c.clearSelects pattern e.1), none)

/-- The `count` local that `DataCache.clear` logs: how many files were
unlinked. -/
def DataCache.clear_removed_count (c : DataCache) (fs : FS)
    (pattern : Option String) : Nat :=
  (fs.filter (fun e => c.clearSelects pattern e.1)).length

/-- System-level view of one `get_season_data` call running in a process
that also holds a `DataCache`: the body of `get_season_data` contains no
reference to the cache and performs no file operation, so the file system
passes through unchanged. -/
def get_season_data_system (api : ErgastAPI)
    (transport : Nat → Except NetErr JValue) (year : Int) (fs : FS) :
    (RetryOutcome NetErr JValue × Except APIErr JValue) × FS :=
  (api.get_season_data transport year, fs)

/-! ## The MySQL loader (f1_data_analysis.py)

One DataFrame row of the tabular source.  A cell is `Option JValue` /
`Option Int` / `Option String` with `none` standing for a pandas NaN (the
`pd.isna` branch). -/

/-- One row of the input DataFrame. -/
structure Row : Type where
  year : Option Int
  round : Option Int
  driver : Option String
  constructor : Option String
  race_name : String
  circuit : Option JValue
  date : Option String
  position : Option JValue
  grid : Option JValue
  points : Option JValue
  race_time : Option JValue
  fastest_lap_rank : Option JValue
  fastest_lap_time : Option JValue
  fastest_lap_speed : Option JValue
  temperature : Option JValue
  humidity : Option JValue
  wind_speed : Option JValue
  wind_direction : Option JValue
  precipitation : Option JValue
  pressure : Option JValue

/-- `safe_value`: NaN (already `none` here) and the literal string `'nan'`
become NULL; everything else passes through. -/
def safe_value : Option JValue → Option JValue
  | some (.str "nan") => none
  | some v => some v
  | none => none

/-- A `races` table row (auto-increment `race_id` = 1 + position in the list). -/
structure RaceRow : Type where
  year : Int
  round : Int
  race_name : String
  circuit : Option JValue
  date : Option String

/-- A `race_results` table row, fields in the column order of the INSERT. -/
structure ResultRow : Type where
  race_id : Nat
  driver_id : Nat
  constructor_id : Nat
  position : Option JValue
  grid : Option JValue
  points : Option JValue
  race_time : Option JValue
  fastest_lap_rank : Option JValue
  fastest_lap_time : Option JValue
  fastest_lap_speed : Option JValue

/-- A `weather_conditions` table row. -/
structure WeatherRow : Type where
  race_id : Nat
  temperature : Option JValue
  humidity : Option JValue
  wind_speed : Option JValue
  wind_direction : Option JValue
  precipitation : Option JValue
  pressure : Option JValue

/-- The relational store: each table as its list of rows in insertion
order; auto-increment ids are 1 + the row's position. -/
structure DB : Type where
  drivers : List String
  constructors : List String
  races : List RaceRow
  race_results : List ResultRow
  weather_conditions : List WeatherRow

/-- `INSERT IGNORE ... (name)` against a UNIQUE(name) table: append only
if the name is not present. -/
def insertIgnoreName (t : List String) (n : String) : List String :=
  if n ∈ t then t else t ++ [n]

/-- `SELECT ..._id FROM t WHERE name=%s`: 1-based id of the first row with
this name. -/
def nameId (t : List String) (n : String) : Option Nat :=
  (t.findIdx? fun m => m = n).map fun i => i + 1

/-- Is a race with this (year, round) key present? -/
def raceKeyMem (races : List RaceRow) (y rd : Int) : Bool :=
  races.any fun r => r.year = y && r.round = rd

/-- `INSERT IGNORE INTO races ...` against UNIQUE(year, round). -/
def insertIgnoreRace (races : List RaceRow) (row : RaceRow) : List RaceRow :=
  if raceKeyMem races row.year row.round then races else races ++ [row]

/-- `SELECT race_id FROM races WHERE year=%s AND round=%s`. -/
def raceId (races : List RaceRow) (y rd : Int) : Option Nat :=
  (races.findIdx? fun r => r.year = y && r.round = rd).map fun i => i + 1

/-- One `INSERT IGNORE INTO drivers (name) VALUES (%s)` statement. -/
def insDriver (name : String) (db : DB) : DB :=
  { db with drivers := insertIgnoreName db.drivers name }

/-- One `INSERT IGNORE INTO constructors (name) VALUES (%s)` statement. -/
def insConstructor (name : String) (db : DB) : DB :=
  { db with constructors := insertIgnoreName db.constructors name }

/-- The `races` row built from an input row (for a row whose year and round
are present): race_name raw, circuit through `safe_value`, date through the
`pd.notna` conditional. -/
def raceRowOf (y rd : Int) (r : Row) : RaceRow :=
  ⟨y, rd, r.race_name, safe_value r.circuit, r.date⟩

/-- The `INSERT IGNORE INTO races ...` statement for one input row. -/
def insRace (y rd : Int) (r : Row) (db : DB) : DB :=
  { db with races := insertIgnoreRace db.races (raceRowOf y rd r) }

/-- The three id lookups of one input row: race by (year, round), driver
and constructor by name (`name = NULL` matches nothing, so a NaN name
fails the lookup). -/
def rowIds (db : DB) (y rd : Int) (r : Row) : Option (Nat × Nat × Nat) := do
  let rid ← raceId db.races y rd
  let did ← r.driver.bind (nameId db.drivers)
  let cid ← r.constructor.bind (nameId db.constructors)
  return (rid, did, cid)

/-- The `INSERT INTO race_results ...` statement for one input row: a plain
insert (no IGNORE, no existence check).  A failed driver or constructor
lookup means the source hit `continue` before this statement — modelled as
the identity.  (A failed race lookup would make `cursor.fetchone()[0]`
raise and roll back the import, but it is unreachable: the race was
insert-ignored immediately before, see `raceId_insRace_isSome`.) -/
def insResult (y rd : Int) (r : Row) (db : DB) : DB :=
  match rowIds db y rd r with
  | some (rid, did, cid) =>
    { db with race_results := db.race_results ++
        [⟨rid, did, cid, safe_value r.position, safe_value r.grid,
          safe_value r.points, safe_value r.race_time,
          safe_value r.fastest_lap_rank, safe_value r.fastest_lap_time,
          safe_value r.fastest_lap_speed⟩] }
  | none => db

/-- The `INSERT INTO weather_conditions ...` statement for one input row
(reached under exactly the same conditions as the results insert). -/
def insWeather (y rd : Int) (r : Row) (db : DB) : DB :=
  match rowIds db y rd r with
  | some (rid, _, _) =>
    { db with weather_conditions := db.weather_conditions ++
        [⟨rid, safe_value r.temperature, safe_value r.humidity,
          safe_value r.wind_speed, safe_value r.wind_direction,
          safe_value r.precipitation, safe_value r.pressure⟩] }
  | none => db

/-- The mutating statements executed for one input row: nothing when year
or round is NaN (the row is skipped), otherwise the race upsert followed by
the result and weather inserts (each guarded by the lookups). -/
def processRowStmts (r : Row) : List (DB → DB) :=
  match r.year, r.round with
  | some y, some rd => [insRace y rd r, insResult y rd r, insWeather y rd r]
  | _, _ => []

/-- `pandas.Series.unique`: values in order of first occurrence. -/
def uniqueFirstAux {α : Type} [DecidableEq α] (seen : List α) :
    List α → List α
  | [] => []
  | a :: rest =>
    if a ∈ seen then uniqueFirstAux seen rest
    else a :: uniqueFirstAux (a :: seen) rest

/-- `df[col].unique()` as a list. -/
def uniqueFirst {α : Type} [DecidableEq α] (l : List α) : List α :=
  uniqueFirstAux [] l

/-- The non-NaN entries of `df['driver'].unique()`, in order. -/
def driverNames (df : List Row) : List String :=
  (uniqueFirst (df.map Row.driver)).filterMap id

/-- The non-NaN entries of `df['constructor'].unique()`, in order. -/
def constructorNames (df : List Row) : List String :=
  (uniqueFirst (df.map Row.constructor)).filterMap id

/-- All mutating statements a full `import_f1_data` pass executes, in
order: the driver upserts over `df['driver'].unique()` (skipping NaN), the
constructor upserts, then the per-row statements. -/
def importMutations (df : List Row) : List (DB → DB) :=
  (driverNames df).map insDriver
    ++ (constructorNames df).map insConstructor
    ++ df.flatMap processRowStmts

/-- Apply a list of statements to a database state directly. -/
def foldApply (ms : List (DB → DB)) (db : DB) : DB :=
  ms.foldl (fun d m => m d) db

/-- A MySQL connection with autocommit off: the committed state, the
pending state the open transaction sees, and how many commits ran. -/
structure Conn : Type where
  committed : DB
  pending : DB
  commits : Nat

/-- A fresh connection over a database. -/
def Conn.start (db : DB) : Conn :=
  ⟨db, db, 0⟩

/-- `cursor.execute` of one mutating statement: only the pending state moves. -/
def Conn.exec (c : Conn) (m : DB → DB) : Conn :=
  { c with pending := m c.pending }

/-- `connection.commit()`. -/
def Conn.commit (c : Conn) : Conn :=
  ⟨c.pending, c.pending, c.commits + 1⟩

/-- `connection.rollback()`. -/
def Conn.rollback (c : Conn) : Conn :=
  { c with pending := c.committed }

/-- Execute a list of statements. -/
def runStmts (c : Conn) (ms : List (DB → DB)) : Conn :=
  ms.foldl Conn.exec c

/-- `import_f1_data(connection, df)` with an injected failure.
`failAt none`: every statement runs and the single `connection.commit()`
at the end of the `try` block runs.  `failAt (some n)`: the n-th mutating
statement raises; the `except` handler prints the error and calls
`connection.rollback()`; `commit` never runs.  The exception is absorbed. -/
def import_f1_data (db : DB) (df : List Row) (failAt : Option Nat) : Conn :=
  match failAt with
  | none => (runStmts (Conn.start db) (importMutations df)).commit
  | some n => (runStmts (Conn.start db) ((importMutations df).take n)).rollback

/-- The committed database after one fully successful import pass. -/
def importPass (db : DB) (df : List Row) : DB :=
  foldApply (importMutations df) db

/-- The input rows that produce a `race_results` / `weather_conditions`
row: year and round present (row not skipped) and driver and constructor
names present (both lookups succeed — a name from the row's own columns is
always in the table after the upsert phase). -/
def validRow (r : Row) : Bool :=
  r.year.isSome && r.round.isSome && r.driver.isSome && r.constructor.isSome

/-- Number of valid rows of an input set. -/
def countValid (df : List Row) : Nat :=
  (df.filter validRow).length

/-! ## The schema manager (create_database_structure) -/

/-- The six tables of the relational schema. -/
inductive TableName : Type where
  | weather_conditions : TableName
  | race_results : TableName
  | rankings : TableName
  | races : TableName
  | drivers : TableName
  | constructors : TableName
deriving DecidableEq

/-- The explicit `DROP TABLE IF EXISTS` order of the source. -/
def drop_order : List TableName :=
  [.weather_conditions, .race_results, .rankings, .races, .drivers, .constructors]

/-- The `CREATE TABLE` order of the source. -/
def create_order : List TableName :=
  [.constructors, .drivers, .races, .weather_conditions, .race_results, .rankings]

/-- A foreign-key clause of a CREATE statement. -/
structure ForeignKeySpec : Type where
  column : String
  refTable : String
  onDeleteCascade : Bool

/-- The constraint content of one CREATE statement. -/
structure TableSchema : Type where
  uniques : List (List String)
  fks : List ForeignKeySpec

/-- The constraints in the source's CREATE statements. -/
def tableSchema : TableName → TableSchema
  | .constructors => ⟨[["name"]], []⟩
  | .drivers => ⟨[["name"]], []⟩
  | .races => ⟨[["year", "round"]], []⟩
  | .weather_conditions => ⟨[], [⟨"race_id", "races", true⟩]⟩
  | .race_results => ⟨[], [⟨"race_id", "races", true⟩, ⟨"driver_id", "drivers", true⟩,
      ⟨"constructor_id", "constructors", true⟩]⟩
  | .rankings => ⟨[], [⟨"race_id", "races", true⟩, ⟨"driver_id", "drivers", true⟩,
      ⟨"constructor_id", "constructors", true⟩]⟩

/-- The create loop: execute each CREATE in order; on the first failure
print the error and `return False` at once (remaining creates are not
attempted).  Returns the attempted creates and the success flag. -/
def createLoop (createOk : TableName → Bool) :
    List TableName → List TableName × Bool
  | [] => ([], true)
  | t :: ts =>
    if createOk t then
      let rest := createLoop createOk ts
      (t :: rest.1, rest.2)
    else ([t], false)

/-- Observable trace of one `create_database_structure` call. -/
structure SchemaRunTrace : Type where
  drops_attempted : List TableName
  creates_attempted : List TableName
  success : Bool

/-- `create_database_structure(connection)`: every DROP is attempted in
`drop_order` — a failing drop is printed and the loop continues — then the
creates run through `createLoop`; `True` is returned only after all six
creates succeeded (followed by a commit). -/
def create_database_structure (_dropOk createOk : TableName → Bool) :
    SchemaRunTrace :=
  let cr := createLoop createOk create_order
  ⟨drop_order, cr.1, cr.2⟩

/-! ## Concrete fixtures used by witnesses and counterexamples -/

/-- A season envelope fixture with two races, shaped like an Ergast
response: `MRData.RaceTable.Races` holding two race objects. -/
def season_fixture : JValue :=
  .obj [("MRData", .obj [("RaceTable", .obj [("Races",
    .arr [.obj [("round", .str "1")], .obj [("round", .str "2")]])])])]

/-- A well-formed Open-Meteo response fixture: every requested hourly
series is the 24-entry list 0, 1, ..., 23, so the value at the race-hour
index is `.num 14`. -/
def weather_fixture : JValue :=
  .obj [("hourly", .obj (weather_hourly_fields.map fun f =>
    (f, .arr ((List.range 24).map fun i => JValue.num i))))]

/-! # Theorems -/

/-! ## General lemmas about the connection/transaction model -/

theorem runStmts_committed (ms : List (DB → DB)) (c : Conn) :
    (runStmts c ms).committed = c.committed := by
  induction ms generalizing c with
  | nil => rfl
  | cons m rest ih => simpa [runStmts, Conn.exec] using ih (c.exec m)

theorem runStmts_commits (ms : List (DB → DB)) (c : Conn) :
    (runStmts c ms).commits = c.commits := by
  induction ms generalizing c with
  | nil => rfl
  | cons m rest ih => simpa [runStmts, Conn.exec] using ih (c.exec m)

theorem runStmts_pending (ms : List (DB → DB)) (c : Conn) :
    (runStmts c ms).pending = foldApply ms c.pending := by
  induction ms generalizing c with
  | nil => rfl
  | cons m rest ih => simpa [runStmts, foldApply, Conn.exec] using ih (c.exec m)

/-- C4: `import_f1_data` runs the whole import in one transaction: the
committed database after a pass that failed at any statement equals the
database before the pass (full rollback, no partial progress, no commit),
and a fully successful pass performs exactly one commit, at the end, whose
committed state is the full pass result. -/
theorem C4_import_single_transaction (db : DB) (df : List Row) :
    (∀ n, (import_f1_data db df (some n)).committed = db) ∧
    (∀ n, (import_f1_data db df (some n)).commits = 0) ∧
    (import_f1_data db df none).commits = 1 ∧
    (import_f1_data db df none).committed = importPass db df := by
  refine ⟨fun n => ?_, fun n => ?_, ?_, ?_⟩
  · simp [import_f1_data, Conn.rollback, runStmts_committed, Conn.start]
  · simp [import_f1_data, Conn.rollback, runStmts_commits, Conn.start]
  · simp [import_f1_data, Conn.commit, runStmts_commits, Conn.start]
  · simp [import_f1_data, Conn.commit, runStmts_pending, Conn.start, importPass]

/-! ## The schema manager -/

theorem createLoop_success_iff (f : TableName → Bool) (l : List TableName) :
    (createLoop f l).2 = true ↔ ∀ t ∈ l, f t = true := by
  induction l with
  | nil => simp [createLoop]
  | cons t ts ih =>
    by_cases h : f t = true
    · simp [createLoop, h, ih]
    · simp [createLoop, h]

theorem createLoop_attempted_of_success (f : TableName → Bool)
    (l : List TableName) (h : (createLoop f l).2 = true) :
    (createLoop f l).1 = l := by
  induction l with
  | nil => rfl
  | cons t ts ih =>
    by_cases hf : f t = true
    · simp only [createLoop, hf, if_true] at h ⊢
      simp [ih h]
    · simp [createLoop, hf] at h

/-- C7: `create_database_structure` attempts the drops for all six tables
in the dependency order weather_conditions, race_results, rankings, races,
drivers, constructors regardless of individual drop failures, then runs
the creates; it returns True exactly when every table-creation statement
succeeds (in which case all six tables were created), and the transcribed
CREATE statements carry UNIQUE(name) on drivers and constructors,
UNIQUE(year, round) on races, and ON DELETE CASCADE on every foreign key
of the three dependent tables. -/
theorem C7_create_database_structure (dropOk createOk : TableName → Bool) :
    (create_database_structure dropOk createOk).drops_attempted =
      [.weather_conditions, .race_results, .rankings, .races, .drivers, .constructors] ∧
    ((create_database_structure dropOk createOk).success = true ↔
      ∀ t ∈ create_order, createOk t = true) ∧
    ((create_database_structure dropOk createOk).success = true →
      (create_database_structure dropOk createOk).creates_attempted = create_order) ∧
    (tableSchema .drivers).uniques = [["name"]] ∧
    (tableSchema .constructors).uniques = [["name"]] ∧
    (tableSchema .races).uniques = [["year", "round"]] ∧
    (∀ t, ∀ fk ∈ (tableSchema t).fks, fk.onDeleteCascade = true) ∧
    ((tableSchema .weather_conditions).fks.map ForeignKeySpec.refTable = ["races"]) := by
  refine ⟨rfl, ?_, ?_, rfl, rfl, rfl, ?_, rfl⟩
  · exact createLoop_success_iff createOk create_order
  · exact fun h => createLoop_attempted_of_success createOk create_order h
  · intro t fk hfk
    cases t <;> simp [tableSchema] at hfk <;>
      rcases hfk with rfl | rfl | rfl <;> rfl

/-- Witness for C7 at the all-succeeding executor: the run reports success,
attempts every create, and attempted the six drops in order. -/
theorem C7_witness :
    (create_database_structure (fun _ => true) (fun _ => true)).success = true :=
  (C7_create_database_structure (fun _ => true) (fun _ => true)).2.1.mpr
    (by intro t _; rfl)

/-! ## Loader lemmas (C5) -/

theorem mem_insertIgnoreName (t : List String) (n m : String) :
    m ∈ insertIgnoreName t n ↔ m ∈ t ∨ m = n := by
  unfold insertIgnoreName
  by_cases h : n ∈ t
  · rw [if_pos h]
    constructor
    · exact Or.inl
    · rintro (hm | rfl)
      · exact hm
      · exact h
  · rw [if_neg h]
    simp [List.mem_append]

theorem insertIgnoreName_eq_of_mem (t : List String) (n : String)
    (h : n ∈ t) : insertIgnoreName t n = t := by
  unfold insertIgnoreName
  rw [if_pos h]

theorem mem_foldl_insertIgnoreName (names : List String) (t : List String)
    (m : String) :
    m ∈ names.foldl insertIgnoreName t ↔ m ∈ t ∨ m ∈ names := by
  induction names generalizing t with
  | nil => simp
  | cons n rest ih =>
    simp only [List.foldl_cons]
    rw [ih, mem_insertIgnoreName]
    simp [or_assoc]

theorem foldl_insertIgnoreName_eq_of_subset (names t : List String)
    (h : ∀ n ∈ names, n ∈ t) : names.foldl insertIgnoreName t = t := by
  induction names with
  | nil => rfl
  | cons n rest ih =>
    simp only [List.foldl_cons]
    rw [insertIgnoreName_eq_of_mem t n (h n (by simp))]
    exact ih fun m hm => h m (by simp [hm])

theorem mem_uniqueFirstAux {α : Type} [DecidableEq α] (l : List α)
    (seen : List α) (a : α) :
    a ∈ uniqueFirstAux seen l ↔ a ∈ l ∧ a ∉ seen := by
  induction l generalizing seen with
  | nil => simp [uniqueFirstAux]
  | cons b rest ih =>
    unfold uniqueFirstAux
    by_cases hb : b ∈ seen
    · rw [if_pos hb, ih]
      constructor
      · rintro ⟨ha, hs⟩
        exact ⟨List.mem_cons_of_mem b ha, hs⟩
      · rintro ⟨hab, hs⟩
        rcases List.mem_cons.mp hab with rfl | ha
        · exact absurd hb hs
        · exact ⟨ha, hs⟩
    · rw [if_neg hb]
      constructor
      · intro hmem
        rcases List.mem_cons.mp hmem with rfl | hm
        · exact ⟨List.mem_cons_self a rest, hb⟩
        · obtain ⟨ha, hs⟩ := (ih (b :: seen)).mp hm
          exact ⟨List.mem_cons_of_mem b ha,
            fun hcon => hs (List.mem_cons_of_mem b hcon)⟩
      · rintro ⟨hab, hs⟩
        rcases List.mem_cons.mp hab with rfl | ha
        · exact List.mem_cons_self a _
        · by_cases hab2 : a = b
          · subst hab2
            exact List.mem_cons_self a _
          · refine List.mem_cons_of_mem b ((ih (b :: seen)).mpr ⟨ha, ?_⟩)
            intro hcon
            rcases List.mem_cons.mp hcon with h1 | h2
            · exact hab2 h1
            · exact hs h2

theorem mem_driverNames (df : List Row) (d : String) :
    d ∈ driverNames df ↔ ∃ r ∈ df, r.driver = some d := by
  unfold driverNames uniqueFirst
  simp [List.mem_filterMap, mem_uniqueFirstAux, List.mem_map]

theorem mem_constructorNames (df : List Row) (d : String) :
    d ∈ constructorNames df ↔ ∃ r ∈ df, r.constructor = some d := by
  unfold constructorNames uniqueFirst
  simp [List.mem_filterMap, mem_uniqueFirstAux, List.mem_map]

theorem raceKeyMem_insertIgnoreRace_self (races : List RaceRow)
    (row : RaceRow) :
    raceKeyMem (insertIgnoreRace races row) row.year row.round = true := by
  unfold insertIgnoreRace
  by_cases h : raceKeyMem races row.year row.round = true
  · rw [if_pos h]
    exact h
  · rw [if_neg h]
    unfold raceKeyMem at *
    rw [List.any_append]
    simp

theorem raceKeyMem_insertIgnoreRace_mono (races : List RaceRow)
    (row : RaceRow) (y rd : Int) (h : raceKeyMem races y rd = true) :
    raceKeyMem (insertIgnoreRace races row) y rd = true := by
  unfold insertIgnoreRace
  by_cases hm : raceKeyMem races row.year row.round = true
  · rw [if_pos hm]
    exact h
  · rw [if_neg hm]
    unfold raceKeyMem at *
    rw [List.any_append]
    simp [h]

theorem insertIgnoreRace_eq_of_mem (races : List RaceRow) (row : RaceRow)
    (h : raceKeyMem races row.year row.round = true) :
    insertIgnoreRace races row = races := by
  unfold insertIgnoreRace
  rw [if_pos h]

theorem raceId_isSome_of_mem (races : List RaceRow) (y rd : Int)
    (h : raceKeyMem races y rd = true) : (raceId races y rd).isSome = true := by
  unfold raceId
  cases hfi : races.findIdx? fun r => r.year = y && r.round = rd with
  | some i => rfl
  | none =>
    exfalso
    unfold raceKeyMem at h
    obtain ⟨r, hr, hpr⟩ := List.any_eq_true.mp h
    have := List.findIdx?_eq_none_iff.mp hfi r hr
    rw [hpr] at this
    cases this

theorem nameId_isSome_of_mem (t : List String) (n : String) (h : n ∈ t) :
    (nameId t n).isSome = true := by
  unfold nameId
  cases hfi : t.findIdx? fun m => m = n with
  | some i => rfl
  | none =>
    exfalso
    have := List.findIdx?_eq_none_iff.mp hfi n h
    simp at this

theorem insRace_drivers (y rd : Int) (r : Row) (db : DB) :
    (insRace y rd r db).drivers = db.drivers := rfl

theorem insRace_constructors (y rd : Int) (r : Row) (db : DB) :
    (insRace y rd r db).constructors = db.constructors := rfl

theorem insRace_race_results (y rd : Int) (r : Row) (db : DB) :
    (insRace y rd r db).race_results = db.race_results := rfl

theorem insRace_weather (y rd : Int) (r : Row) (db : DB) :
    (insRace y rd r db).weather_conditions = db.weather_conditions := rfl

theorem insRace_races (y rd : Int) (r : Row) (db : DB) :
    (insRace y rd r db).races = insertIgnoreRace db.races (raceRowOf y rd r) :=
  rfl

theorem insResult_drivers (y rd : Int) (r : Row) (db : DB) :
    (insResult y rd r db).drivers = db.drivers := by
  unfold insResult
  cases h : rowIds db y rd r with
  | none => rfl
  | some ids =>
    obtain ⟨rid, did, cid⟩ := ids
    rfl

theorem insResult_constructors (y rd : Int) (r : Row) (db : DB) :
    (insResult y rd r db).constructors = db.constructors := by
  unfold insResult
  cases h : rowIds db y rd r with
  | none => rfl
  | some ids =>
    obtain ⟨rid, did, cid⟩ := ids
    rfl

theorem insResult_races (y rd : Int) (r : Row) (db : DB) :
    (insResult y rd r db).races = db.races := by
  unfold insResult
  cases h : rowIds db y rd r with
  | none => rfl
  | some ids =>
    obtain ⟨rid, did, cid⟩ := ids
    rfl

theorem insResult_weather (y rd : Int) (r : Row) (db : DB) :
    (insResult y rd r db).weather_conditions = db.weather_conditions := by
  unfold insResult
  cases h : rowIds db y rd r with
  | none => rfl
  | some ids =>
    obtain ⟨rid, did, cid⟩ := ids
    rfl

theorem insWeather_drivers (y rd : Int) (r : Row) (db : DB) :
    (insWeather y rd r db).drivers = db.drivers := by
  unfold insWeather
  cases h : rowIds db y rd r with
  | none => rfl
  | some ids =>
    obtain ⟨rid, did, cid⟩ := ids
    rfl

theorem insWeather_constructors (y rd : Int) (r : Row) (db : DB) :
    (insWeather y rd r db).constructors = db.constructors := by
  unfold insWeather
  cases h : rowIds db y rd r with
  | none => rfl
  | some ids =>
    obtain ⟨rid, did, cid⟩ := ids
    rfl

theorem insWeather_races (y rd : Int) (r : Row) (db : DB) :
    (insWeather y rd r db).races = db.races := by
  unfold insWeather
  cases h : rowIds db y rd r with
  | none => rfl
  | some ids =>
    obtain ⟨rid, did, cid⟩ := ids
    rfl

theorem insWeather_race_results (y rd : Int) (r : Row) (db : DB) :
    (insWeather y rd r db).race_results = db.race_results := by
  unfold insWeather
  cases h : rowIds db y rd r with
  | none => rfl
  | some ids =>
    obtain ⟨rid, did, cid⟩ := ids
    rfl

theorem rowIds_congr (db1 db2 : DB) (y rd : Int) (r : Row)
    (hr : db1.races = db2.races) (hd : db1.drivers = db2.drivers)
    (hc : db1.constructors = db2.constructors) :
    rowIds db1 y rd r = rowIds db2 y rd r := by
  unfold rowIds
  rw [hr, hd, hc]

theorem foldApply_append (l1 l2 : List (DB → DB)) (db : DB) :
    foldApply (l1 ++ l2) db = foldApply l2 (foldApply l1 db) := by
  unfold foldApply
  rw [List.foldl_append]

theorem foldApply_insDrivers (names : List String) (db : DB) :
    foldApply (names.map insDriver) db =
      { db with drivers := names.foldl insertIgnoreName db.drivers } := by
  induction names generalizing db with
  | nil => rfl
  | cons n rest ih =>
    simp only [List.map_cons, foldApply, List.foldl_cons]
    exact ih (insDriver n db)

theorem foldApply_insConstructors (names : List String) (db : DB) :
    foldApply (names.map insConstructor) db =
      { db with constructors := names.foldl insertIgnoreName db.constructors } := by
  induction names generalizing db with
  | nil => rfl
  | cons n rest ih =>
    simp only [List.map_cons, foldApply, List.foldl_cons]
    exact ih (insConstructor n db)

theorem processRow_spec (r : Row) (db : DB)
    (hd : ∀ d, r.driver = some d → d ∈ db.drivers)
    (hc : ∀ d, r.constructor = some d → d ∈ db.constructors) :
    (foldApply (processRowStmts r) db).drivers = db.drivers ∧
    (foldApply (processRowStmts r) db).constructors = db.constructors ∧
    (foldApply (processRowStmts r) db).race_results.length =
      db.race_results.length + (if validRow r then 1 else 0) ∧
    (foldApply (processRowStmts r) db).weather_conditions.length =
      db.weather_conditions.length + (if validRow r then 1 else 0) ∧
    (∀ y0 rd0, raceKeyMem db.races y0 rd0 = true →
      raceKeyMem (foldApply (processRowStmts r) db).races y0 rd0 = true) ∧
    (∀ y0 rd0, r.year = some y0 → r.round = some rd0 →
      raceKeyMem (foldApply (processRowStmts r) db).races y0 rd0 = true) := by
  cases hy : r.year with
  | none =>
    have hstmts : processRowStmts r = [] := by
      unfold processRowStmts
      rw [hy]
    have hv : validRow r = false := by
      simp [validRow, hy]
    rw [hstmts, hv]
    refine ⟨rfl, rfl, by simp [foldApply], by simp [foldApply],
      fun y0 rd0 h => h, fun y0 rd0 hcon _ => ?_⟩
    cases hcon
  | some y =>
    cases hrd : r.round with
    | none =>
      have hstmts : processRowStmts r = [] := by
        unfold processRowStmts
        rw [hy, hrd]
      have hv : validRow r = false := by
        simp [validRow, hrd]
      rw [hstmts, hv]
      refine ⟨rfl, rfl, by simp [foldApply], by simp [foldApply],
        fun y0 rd0 h => h, fun y0 rd0 _ hcon => ?_⟩
      cases hcon
    | some rd =>
      have hfold : foldApply (processRowStmts r) db =
          insWeather y rd r (insResult y rd r (insRace y rd r db)) := by
        unfold processRowStmts
        rw [hy, hrd]
        rfl
      have hkey : raceKeyMem (insRace y rd r db).races y rd = true := by
        rw [insRace_races]
        exact raceKeyMem_insertIgnoreRace_self db.races (raceRowOf y rd r)
      obtain ⟨rid, hrid⟩ := Option.isSome_iff_exists.mp
        (raceId_isSome_of_mem (insRace y rd r db).races y rd hkey)
      rw [hfold]
      cases hdr : r.driver with
      | none =>
        have hids : rowIds (insRace y rd r db) y rd r = none := by
          unfold rowIds
          rw [hdr, hrid]
          rfl
        have he1 : insResult y rd r (insRace y rd r db) = insRace y rd r db := by
          unfold insResult
          rw [hids]
        have he2 : insWeather y rd r (insRace y rd r db) = insRace y rd r db := by
          unfold insWeather
          rw [hids]
        rw [he1, he2]
        have hv : validRow r = false := by
          simp [validRow, hdr]
        rw [hv]
        refine ⟨rfl, rfl, by simp [insRace_race_results],
          by simp [insRace_weather], fun y0 rd0 h => ?_, fun y0 rd0 hy0 hrd0 => ?_⟩
        · rw [insRace_races]
          exact raceKeyMem_insertIgnoreRace_mono db.races (raceRowOf y rd r) y0 rd0 h
        · cases hy0
          cases hrd0
          exact hkey
      | some dn =>
        obtain ⟨did, hdid⟩ := Option.isSome_iff_exists.mp
          (nameId_isSome_of_mem db.drivers dn (hd dn hdr))
        cases hcr : r.constructor with
        | none =>
          have hids : rowIds (insRace y rd r db) y rd r = none := by
            unfold rowIds
            rw [hdr, hcr, hrid]
            show ((nameId (insRace y rd r db).drivers dn).bind fun did =>
              (Option.none.bind (nameId (insRace y rd r db).constructors)).bind
                fun cid => some (rid, did, cid)) = none
            rw [insRace_drivers, hdid]
            rfl
          have he1 : insResult y rd r (insRace y rd r db) = insRace y rd r db := by
            unfold insResult
            rw [hids]
          have he2 : insWeather y rd r (insRace y rd r db) = insRace y rd r db := by
            unfold insWeather
            rw [hids]
          rw [he1, he2]
          have hv : validRow r = false := by
            simp [validRow, hcr]
          rw [hv]
          refine ⟨rfl, rfl, by simp [insRace_race_results],
            by simp [insRace_weather], fun y0 rd0 h => ?_, fun y0 rd0 hy0 hrd0 => ?_⟩
          · rw [insRace_races]
            exact raceKeyMem_insertIgnoreRace_mono db.races (raceRowOf y rd r) y0 rd0 h
          · cases hy0
            cases hrd0
            exact hkey
        | some cn =>
          obtain ⟨cid, hcid⟩ := Option.isSome_iff_exists.mp
            (nameId_isSome_of_mem db.constructors cn (hc cn hcr))
          have hids : rowIds (insRace y rd r db) y rd r =
              some (rid, did, cid) := by
            unfold rowIds
            rw [hdr, hcr, hrid]
            show ((nameId (insRace y rd r db).drivers dn).bind fun did =>
              ((some cn).bind (nameId (insRace y rd r db).constructors)).bind
                fun cid => some (rid, did, cid)) = some (rid, did, cid)
            rw [insRace_drivers, hdid]
            show ((some cn).bind (nameId (insRace y rd r db).constructors)).bind
              (fun cid => some (rid, did, cid)) = some (rid, did, cid)
            rw [show (some cn).bind (nameId (insRace y rd r db).constructors) =
              nameId (insRace y rd r db).constructors cn from rfl,
              insRace_constructors, hcid]
            rfl
          have he1 : insResult y rd r (insRace y rd r db) =
              { insRace y rd r db with race_results :=
                (insRace y rd r db).race_results ++
                  [⟨rid, did, cid, safe_value r.position, safe_value r.grid,
                    safe_value r.points, safe_value r.race_time,
                    safe_value r.fastest_lap_rank, safe_value r.fastest_lap_time,
                    safe_value r.fastest_lap_speed⟩] } := by
            unfold insResult
            rw [hids]
          have hids2 : rowIds (insResult y rd r (insRace y rd r db)) y rd r =
              some (rid, did, cid) :=
            (rowIds_congr _ (insRace y rd r db) y rd r
              (insResult_races y rd r _) (insResult_drivers y rd r _)
              (insResult_constructors y rd r _)).trans hids
          have he2 : insWeather y rd r (insResult y rd r (insRace y rd r db)) =
              { insResult y rd r (insRace y rd r db) with weather_conditions :=
                (insResult y rd r (insRace y rd r db)).weather_conditions ++
                  [⟨rid, safe_value r.temperature, safe_value r.humidity,
                    safe_value r.wind_speed, safe_value r.wind_direction,
                    safe_value r.precipitation, safe_value r.pressure⟩] } := by
            unfold insWeather
            rw [hids2]
          have hv : validRow r = true := by
            simp [validRow, hy, hrd, hdr, hcr]
          rw [he2, hv]
          refine ⟨?_, ?_, ?_, ?_, fun y0 rd0 h => ?_, fun y0 rd0 hy0 hrd0 => ?_⟩
          · show (insResult y rd r (insRace y rd r db)).drivers = db.drivers
            rw [insResult_drivers, insRace_drivers]
          · show (insResult y rd r (insRace y rd r db)).constructors =
              db.constructors
            rw [insResult_constructors, insRace_constructors]
          · show (insResult y rd r (insRace y rd r db)).race_results.length =
              db.race_results.length + 1
            rw [he1]
            simp [insRace_race_results]
          · show ((insResult y rd r (insRace y rd r db)).weather_conditions ++
              _).length = db.weather_conditions.length + 1
            rw [insResult_weather, insRace_weather]
            simp
          · show raceKeyMem (insResult y rd r (insRace y rd r db)).races y0 rd0 =
              true
            rw [insResult_races, insRace_races]
            exact raceKeyMem_insertIgnoreRace_mono db.races (raceRowOf y rd r) y0 rd0 h
          · show raceKeyMem (insResult y rd r (insRace y rd r db)).races y0 rd0 =
              true
            cases hy0
            cases hrd0
            rw [insResult_races]
            exact hkey

theorem processRow_races_stable (r : Row) (db : DB)
    (h : ∀ y0 rd0, r.year = some y0 → r.round = some rd0 →
      raceKeyMem db.races y0 rd0 = true) :
    (foldApply (processRowStmts r) db).races = db.races := by
  cases hy : r.year with
  | none =>
    have hstmts : processRowStmts r = [] := by
      unfold processRowStmts
      rw [hy]
    rw [hstmts]
    rfl
  | some y =>
    cases hrd : r.round with
    | none =>
      have hstmts : processRowStmts r = [] := by
        unfold processRowStmts
        rw [hy, hrd]
      rw [hstmts]
      rfl
    | some rd =>
      have hfold : foldApply (processRowStmts r) db =
          insWeather y rd r (insResult y rd r (insRace y rd r db)) := by
        unfold processRowStmts
        rw [hy, hrd]
        rfl
      have hmem : raceKeyMem db.races y rd = true := h y rd hy hrd
      have h1 : insRace y rd r db = db := by
        show { db with races := insertIgnoreRace db.races (raceRowOf y rd r) } = db
        rw [insertIgnoreRace_eq_of_mem db.races (raceRowOf y rd r) hmem]
      rw [hfold, h1, insWeather_races, insResult_races]

theorem importRows_spec (rows : List Row) (db : DB)
    (hd : ∀ r ∈ rows, ∀ d, r.driver = some d → d ∈ db.drivers)
    (hc : ∀ r ∈ rows, ∀ d, r.constructor = some d → d ∈ db.constructors) :
    (foldApply (rows.flatMap processRowStmts) db).drivers = db.drivers ∧
    (foldApply (rows.flatMap processRowStmts) db).constructors =
      db.constructors ∧
    (foldApply (rows.flatMap processRowStmts) db).race_results.length =
      db.race_results.length + countValid rows ∧
    (foldApply (rows.flatMap processRowStmts) db).weather_conditions.length =
      db.weather_conditions.length + countValid rows ∧
    (∀ y0 rd0, raceKeyMem db.races y0 rd0 = true →
      raceKeyMem (foldApply (rows.flatMap processRowStmts) db).races y0 rd0 =
        true) ∧
    (∀ r ∈ rows, ∀ y0 rd0, r.year = some y0 → r.round = some rd0 →
      raceKeyMem (foldApply (rows.flatMap processRowStmts) db).races y0 rd0 =
        true) := by
  induction rows generalizing db with
  | nil =>
    refine ⟨rfl, rfl, by simp [countValid, foldApply],
      by simp [countValid, foldApply], fun _ _ h => h, fun r hr => ?_⟩
    exact absurd hr (List.not_mem_nil r)
  | cons r rest ih =>
    have hsplit : (r :: rest).flatMap processRowStmts =
        processRowStmts r ++ rest.flatMap processRowStmts := rfl
    rw [hsplit, foldApply_append]
    obtain ⟨pd, pc, pr, pw, pk, pkr⟩ :=
      processRow_spec r db (hd r (by simp)) (hc r (by simp))
    have hd1 : ∀ s ∈ rest, ∀ d, s.driver = some d →
        d ∈ (foldApply (processRowStmts r) db).drivers := by
      intro s hs d hsd
      rw [pd]
      exact hd s (by simp [hs]) d hsd
    have hc1 : ∀ s ∈ rest, ∀ d, s.constructor = some d →
        d ∈ (foldApply (processRowStmts r) db).constructors := by
      intro s hs d hsd
      rw [pc]
      exact hc s (by simp [hs]) d hsd
    obtain ⟨qd, qc, qr, qw, qk, qkr⟩ :=
      ih (foldApply (processRowStmts r) db) hd1 hc1
    have hcount : countValid (r :: rest) =
        (if validRow r then 1 else 0) + countValid rest := by
      by_cases hv : validRow r <;>
        simp [countValid, List.filter_cons, hv]
      omega
    refine ⟨?_, ?_, ?_, ?_, ?_, ?_⟩
    · rw [qd, pd]
    · rw [qc, pc]
    · rw [qr, pr, hcount]
      omega
    · rw [qw, pw, hcount]
      omega
    · intro y0 rd0 h
      exact qk y0 rd0 (pk y0 rd0 h)
    · intro s hs y0 rd0 hsy hsrd
      rcases List.mem_cons.mp hs with rfl | hs2
      · exact qk y0 rd0 (pkr y0 rd0 hsy hsrd)
      · exact qkr s hs2 y0 rd0 hsy hsrd

theorem importRows_races_stable (rows : List Row) (db : DB)
    (h : ∀ r ∈ rows, ∀ y0 rd0, r.year = some y0 → r.round = some rd0 →
      raceKeyMem db.races y0 rd0 = true) :
    (foldApply (rows.flatMap processRowStmts) db).races = db.races := by
  induction rows generalizing db with
  | nil => rfl
  | cons r rest ih =>
    rw [show (r :: rest).flatMap processRowStmts =
      processRowStmts r ++ rest.flatMap processRowStmts from rfl,
      foldApply_append]
    have hst := processRow_races_stable r db (h r (by simp))
    have hrest : ∀ s ∈ rest, ∀ y0 rd0, s.year = some y0 →
        s.round = some rd0 →
        raceKeyMem (foldApply (processRowStmts r) db).races y0 rd0 = true := by
      intro s hs y0 rd0 h1 h2
      rw [hst]
      exact h s (by simp [hs]) y0 rd0 h1 h2
    rw [ih _ hrest, hst]

/-- The state after the driver and constructor upsert phases of one import
pass over `df`, starting from `d`. -/
theorem importPass_decomp (df : List Row) (d : DB) :
    importPass d df =
      foldApply (df.flatMap processRowStmts)
        { d with
          drivers := (driverNames df).foldl insertIgnoreName d.drivers,
          constructors :=
            (constructorNames df).foldl insertIgnoreName d.constructors } := by
  unfold importPass importMutations
  rw [foldApply_append, foldApply_append, foldApply_insDrivers,
    foldApply_insConstructors]

/-- C5: importing the same row set twice leaves the row counts of races,
drivers and constructors equal to the counts after one import (the
INSERT IGNORE upserts are idempotent for the unique keys name and
(year, round)), while each pass grows race_results and weather_conditions
by exactly the number of valid input rows — result rows are inserted
afresh on every pass without checking for an existing (race, driver)
result. -/
theorem C5_import_idempotent_counts (db : DB) (df : List Row) :
    (importPass (importPass db df) df).races.length =
      (importPass db df).races.length ∧
    (importPass (importPass db df) df).drivers.length =
      (importPass db df).drivers.length ∧
    (importPass (importPass db df) df).constructors.length =
      (importPass db df).constructors.length ∧
    (importPass db df).race_results.length =
      db.race_results.length + countValid df ∧
    (importPass (importPass db df) df).race_results.length =
      (importPass db df).race_results.length + countValid df ∧
    (importPass db df).weather_conditions.length =
      db.weather_conditions.length + countValid df ∧
    (importPass (importPass db df) df).weather_conditions.length =
      (importPass db df).weather_conditions.length + countValid df := by
  have hdmem : ∀ r ∈ df, ∀ dn, r.driver = some dn →
      dn ∈ (driverNames df).foldl insertIgnoreName db.drivers := by
    intro r hr dn hdn
    exact (mem_foldl_insertIgnoreName _ _ _).mpr
      (Or.inr ((mem_driverNames df dn).mpr ⟨r, hr, hdn⟩))
  have hcmem : ∀ r ∈ df, ∀ cn, r.constructor = some cn →
      cn ∈ (constructorNames df).foldl insertIgnoreName db.constructors := by
    intro r hr cn hcn
    exact (mem_foldl_insertIgnoreName _ _ _).mpr
      (Or.inr ((mem_constructorNames df cn).mpr ⟨r, hr, hcn⟩))
  obtain ⟨pd, pc, pr, pw, pk, pkr⟩ :=
    importRows_spec df
      { db with
        drivers := (driverNames df).foldl insertIgnoreName db.drivers,
        constructors :=
          (constructorNames df).foldl insertIgnoreName db.constructors }
      hdmem hcmem
  have h1 := importPass_decomp df db
  -- facts about the first pass
  have hdrv1 : (importPass db df).drivers =
      (driverNames df).foldl insertIgnoreName db.drivers := by
    rw [h1, pd]
  have hcon1 : (importPass db df).constructors =
      (constructorNames df).foldl insertIgnoreName db.constructors := by
    rw [h1, pc]
  have hres1 : (importPass db df).race_results.length =
      db.race_results.length + countValid df := by
    rw [h1, pr]
  have hwea1 : (importPass db df).weather_conditions.length =
      db.weather_conditions.length + countValid df := by
    rw [h1, pw]
  have hkeys1 : ∀ r ∈ df, ∀ y0 rd0, r.year = some y0 → r.round = some rd0 →
      raceKeyMem (importPass db df).races y0 rd0 = true := by
    intro r hr y0 rd0 hy0 hrd0
    rw [h1]
    exact pkr r hr y0 rd0 hy0 hrd0
  -- the upsert phases of the second pass change nothing
  have hsub_d : (driverNames df).foldl insertIgnoreName
      (importPass db df).drivers = (importPass db df).drivers := by
    apply foldl_insertIgnoreName_eq_of_subset
    intro n hn
    rw [hdrv1]
    exact (mem_foldl_insertIgnoreName _ _ _).mpr (Or.inr hn)
  have hsub_c : (constructorNames df).foldl insertIgnoreName
      (importPass db df).constructors = (importPass db df).constructors := by
    apply foldl_insertIgnoreName_eq_of_subset
    intro n hn
    rw [hcon1]
    exact (mem_foldl_insertIgnoreName _ _ _).mpr (Or.inr hn)
  have h2 : importPass (importPass db df) df =
      foldApply (df.flatMap processRowStmts) (importPass db df) := by
    rw [importPass_decomp df (importPass db df), hsub_d, hsub_c]
  have hdmem2 : ∀ r ∈ df, ∀ dn, r.driver = some dn →
      dn ∈ (importPass db df).drivers := by
    intro r hr dn hdn
    rw [hdrv1]
    exact hdmem r hr dn hdn
  have hcmem2 : ∀ r ∈ df, ∀ cn, r.constructor = some cn →
      cn ∈ (importPass db df).constructors := by
    intro r hr cn hcn
    rw [hcon1]
    exact hcmem r hr cn hcn
  obtain ⟨qd, qc, qr, qw, qk, qkr⟩ :=
    importRows_spec df (importPass db df) hdmem2 hcmem2
  have hstable : (foldApply (df.flatMap processRowStmts)
      (importPass db df)).races = (importPass db df).races :=
    importRows_races_stable df (importPass db df) hkeys1
  refine ⟨?_, ?_, ?_, hres1, ?_, hwea1, ?_⟩
  · rw [h2, hstable]
  · rw [h2, qd]
  · rw [h2, qc]
  · rw [h2, qr]
  · rw [h2, qw]

/-! ## The retry decorator -/

theorem runRetry_three_fail {α : Type} (pol : RetryPolicy)
    (hpol : pol.stopAfterAttempt = 3) (t : Nat → Except NetErr α)
    (hfail : ∀ k, ∃ e, t k = Except.error e) :
    (runRetry pol t).attempts = 3 ∧
    (runRetry pol t).waits = [tenacityWait pol 1, tenacityWait pol 2] ∧
    ∃ e, (runRetry pol t).result = Except.error e := by
  obtain ⟨e1, h1⟩ := hfail 1
  obtain ⟨e2, h2⟩ := hfail 2
  obtain ⟨e3, h3⟩ := hfail 3
  have hrun : runRetry pol t =
      ⟨3, [tenacityWait pol 1, tenacityWait pol 2], .error e3⟩ := by
    show runRetryAux pol t 1 pol.stopAfterAttempt = _
    rw [hpol]
    show runRetryAux pol t 1 (2 + 1) = _
    simp only [runRetryAux, h1, h2, h3]
    norm_num
  rw [hrun]
  exact ⟨rfl, rfl, e3, rfl⟩

theorem runRetry_first_ok {α : Type} (pol : RetryPolicy)
    (hpol : pol.stopAfterAttempt = 3) (t : Nat → Except NetErr α) (a : α)
    (h1 : t 1 = Except.ok a) :
    runRetry pol t = ⟨1, [], Except.ok a⟩ := by
  show runRetryAux pol t 1 pol.stopAfterAttempt = _
  rw [hpol]
  show runRetryAux pol t 1 (2 + 1) = _
  rw [runRetryAux, h1]

/-- C2 (amended): with an always-failing transport a retry-decorated API
call makes exactly 3 attempts — the count hardcoded in the decorator, not
the configured `max_retries` — and surfaces as `APIError`; the wait after
failed attempt k is `min(max_wait, max(min_wait, multiplier^k))` with the
hardcoded multiplier 2, min 4 and max 30, so the waits are non-decreasing
and never exceed the maximum. -/
theorem C2_retry_policy (cfg : ApisConfig)
    (transport : Nat → Except NetErr JValue) (year : Int)
    (hfail : ∀ k, ∃ e, transport k = Except.error e) :
    ((ErgastAPI.init cfg).get_season_data transport year).1.attempts = 3 ∧
    (∃ msg, ((ErgastAPI.init cfg).get_season_data transport year).2 =
      Except.error (APIErr.mk msg)) ∧
    ((ErgastAPI.init cfg).get_season_data transport year).1.waits =
      (List.range 2).map (fun k =>
        min api_call_retry_policy.waitMax
          (max api_call_retry_policy.waitMin
            (api_call_retry_policy.waitMultiplier ^ (k + 1)))) ∧
    ((ErgastAPI.init cfg).get_season_data transport year).1.waits.Chain' (· ≤ ·) ∧
    (∀ w ∈ ((ErgastAPI.init cfg).get_season_data transport year).1.waits,
      w ≤ api_call_retry_policy.waitMax) := by
  obtain ⟨hat, hw, e, hres⟩ :=
    runRetry_three_fail api_call_retry_policy rfl transport hfail
  have hrun : ((ErgastAPI.init cfg).get_season_data transport year).1 =
      runRetry api_call_retry_policy transport := rfl
  have hwaits : (runRetry api_call_retry_policy transport).waits = [4, 4] := by
    rw [hw]
    norm_num [tenacityWait, api_call_retry_policy]
  refine ⟨by rw [hrun, hat], ?_, ?_, ?_, ?_⟩
  · refine ⟨"season fetch failed", ?_⟩
    simp [ErgastAPI.get_season_data, ErgastAPI.api_call_with_retry, hres]
  · rw [hrun, hwaits]
    norm_num [api_call_retry_policy, List.range_succ]
  · rw [hrun, hwaits]
    simp
  · rw [hrun, hwaits]
    intro w hwmem
    simp [api_call_retry_policy] at hwmem ⊢
    rcases hwmem with rfl | rfl
    all_goals norm_num

/-- Witness for C2 at a concrete configuration and a concretely failing
transport: exactly three attempts are made. -/
theorem C2_retry_policy_witness :
    ((ErgastAPI.init ⟨"e", "o", none, none, none, none⟩).get_season_data
      (fun _ => Except.error ⟨"down"⟩) 2023).1.attempts = 3 :=
  (C2_retry_policy ⟨"e", "o", none, none, none, none⟩
    (fun _ => Except.error ⟨"down"⟩) 2023 (fun _ => ⟨⟨"down"⟩, rfl⟩)).1

/-- C2 counterexample: configure `max_retries = 7`; the object stores 7 but
the decorator still makes exactly 3 attempts, so the number of attempts is
not the configured value. -/
theorem C2_counterexample :
    (ErgastAPI.init ⟨"e", "o", some 7, none, none, none⟩).max_retries = 7 ∧
    ((ErgastAPI.init ⟨"e", "o", some 7, none, none, none⟩).get_season_data
      (fun _ => Except.error ⟨"down"⟩) 2023).1.attempts = 3 ∧
    ((ErgastAPI.init ⟨"e", "o", some 7, none, none, none⟩).get_season_data
      (fun _ => Except.error ⟨"down"⟩) 2023).1.attempts ≠
      (ErgastAPI.init ⟨"e", "o", some 7, none, none, none⟩).max_retries := by
  refine ⟨rfl, rfl, ?_⟩
  intro h
  have : (3 : Nat) = 7 := h
  omega

/-! ## The page fetcher -/

/-- C9 (amended): `fetch_page` either returns the page text — the value of
the successful attempt, together with the politeness delay drawn in
[min_delay, max_delay] and performed on that attempt — or, once the three
retry attempts are exhausted, propagates the failure as an exception
(`DataExtractionError` wrapped by the retry decorator); it does not return
an absent value.  Both the plain-HTTP and the browser backend — either
branch of the `use_playwright` dispatch — satisfy this same contract with
the same success type. -/
theorem C9_fetch_page (s : F1Scraper) (transport : Nat → Except NetErr String)
    (draw : Nat → ℚ) (hlo : ∀ k, s.min_delay ≤ draw k)
    (hhi : ∀ k, draw k ≤ s.max_delay) :
    (∀ html, transport 1 = Except.ok html →
      s.fetch_page transport draw = ⟨1, [], Except.ok (html, draw 1)⟩ ∧
      s.min_delay ≤ draw 1 ∧ draw 1 ≤ s.max_delay) ∧
    ((∀ k, ∃ e, transport k = Except.error e) →
      (s.fetch_page transport draw).attempts = 3 ∧
      ∃ e, (s.fetch_page transport draw).result = Except.error e) := by
  have hdispatch : s.fetch_page transport draw =
      runRetry (if s.use_playwright then playwright_retry_policy
        else requests_retry_policy)
        (fun k => (transport k).map fun html => (html, draw k)) := by
    by_cases hb : s.use_playwright <;>
      simp [F1Scraper.fetch_page, F1Scraper.fetch_with_playwright,
        F1Scraper.fetch_with_requests, hb]
  have hstop : (if s.use_playwright then playwright_retry_policy
      else requests_retry_policy).stopAfterAttempt = 3 := by
    by_cases hb : s.use_playwright <;>
      simp [playwright_retry_policy, requests_retry_policy, hb]
  constructor
  · intro html h1
    refine ⟨?_, hlo 1, hhi 1⟩
    rw [hdispatch]
    exact runRetry_first_ok _ hstop _ (html, draw 1) (by rw [h1]; rfl)
  · intro hfail
    have hfail2 : ∀ k, ∃ e,
        ((transport k).map fun html => (html, draw k)) = Except.error e := by
      intro k
      obtain ⟨e, he⟩ := hfail k
      exact ⟨e, by rw [he]; rfl⟩
    obtain ⟨hat, _, e, hres⟩ := runRetry_three_fail _ hstop _ hfail2
    rw [hdispatch]
    exact ⟨hat, e, hres⟩

/-- Witness for C9: a concrete scraper over a transport succeeding at once:
the fetch returns the page text with the drawn politeness delay. -/
theorem C9_fetch_page_witness :
    (F1Scraper.fetch_page ⟨false, true, true, 3, 7⟩
      (fun _ => Except.ok "page html") (fun _ => 5) =
      ⟨1, [], Except.ok ("page html", 5)⟩) ∧
    (3 : ℚ) ≤ 5 ∧ (5 : ℚ) ≤ 7 :=
  (C9_fetch_page ⟨false, true, true, 3, 7⟩ (fun _ => Except.ok "page html")
    (fun _ => 5) (fun _ => by norm_num) (fun _ => by norm_num)).1
    "page html" rfl

/-- C9 counterexample: with a transport whose every attempt fails, both
backends of `fetch_page` end in a raised error — the exhausted retry
propagates the exception — not in an absent value returned to the caller,
contradicting the claimed absent-on-exhaustion contract. -/
theorem C9_counterexample :
    (F1Scraper.fetch_page ⟨false, true, true, 3, 7⟩
      (fun _ => Except.error ⟨"down"⟩) (fun _ => 5)).result =
      Except.error ⟨"down"⟩ ∧
    (F1Scraper.fetch_page ⟨true, true, true, 3, 7⟩
      (fun _ => Except.error ⟨"down"⟩) (fun _ => 5)).result =
      Except.error ⟨"down"⟩ ∧
    ¬ ∃ v, (F1Scraper.fetch_page ⟨false, true, true, 3, 7⟩
      (fun _ => Except.error ⟨"down"⟩) (fun _ => 5)).result = Except.ok v := by
  refine ⟨rfl, rfl, ?_⟩
  rintro ⟨v, hv⟩
  have : (Except.error ⟨"down"⟩ : Except NetErr (String × ℚ)) = Except.ok v := hv
  cases this

/-! ## File-system lemmas and the cache claims (C3, C8, C10) -/

theorem FS.read_erase_ne (fs : FS) (p q : String) (h : ¬ p = q) :
    FS.read (fs.erase p) q = FS.read fs q := by
  induction fs with
  | nil => rfl
  | cons e rest ih =>
    obtain ⟨ep, ec⟩ := e
    by_cases hep : ep = p
    · have hq : ¬ ep = q := fun hh => h (hep ▸ hh)
      simp only [FS.erase, List.filter_cons, hep] at ih ⊢
      simpa [FS.read, hq, h] using ih
    · simp only [FS.erase, List.filter_cons, hep] at ih ⊢
      by_cases heq : ep = q
      · simp [FS.read, heq]
      · simp [FS.read, heq]
        exact ih

theorem FS.read_erase_self (fs : FS) (p : String) :
    FS.read (fs.erase p) p = none := by
  induction fs with
  | nil => rfl
  | cons e rest ih =>
    obtain ⟨ep, ec⟩ := e
    by_cases hep : ep = p
    · simp only [FS.erase, List.filter_cons, hep] at ih ⊢
      simpa using ih
    · simp only [FS.erase, List.filter_cons, hep] at ih ⊢
      simpa [FS.read, hep] using ih

theorem FS.read_write_self (fs : FS) (p : String) (c : FileContent) :
    FS.read (fs.write p c) p = some c := by
  simp [FS.write, FS.read]

theorem FS.read_write_ne (fs : FS) (p q : String) (c : FileContent)
    (h : ¬ p = q) : FS.read (fs.write p c) q = FS.read fs q := by
  show (if p = q then some c else FS.read (fs.erase p) q) = _
  rw [if_neg h]
  exact FS.read_erase_ne fs p q h

/-- C3 (amended): `DataCache.set` serializes into a temporary file created
in the system temporary directory — not the cache directory — and installs
it over `cache_dir/key.json` with one `shutil.move`; provided that move is
an atomic rename (temporary and cache directory on one filesystem, which
is what `FS.move` models), a crash after any prefix of the primitive
operations leaves `get(key)` returning either the previously stored value
or absence, and only after the final operation the new value. -/
theorem C3_set_crash_safe (c : DataCache) (fs : FS) (tmpPath key : String)
    (data : JValue) (hne : ¬ tmpPath = c.filePath key) (k : Nat) :
    c.get (c.set_crash fs tmpPath key data k) key = c.get fs key ∨
    c.get (c.set_crash fs tmpPath key data k) key = some data := by
  rcases k with _ | _ | _ | k
  · exact Or.inl rfl
  · left
    have h1 : c.set_crash fs tmpPath key data 1 =
        fs.write tmpPath (.raw "") := rfl
    rw [h1]
    unfold DataCache.get
    rw [FS.read_write_ne _ _ _ _ hne]
  · left
    have h2 : c.set_crash fs tmpPath key data 2 =
        (fs.write tmpPath (.raw "")).write tmpPath (.json data) := rfl
    rw [h2]
    unfold DataCache.get
    rw [FS.read_write_ne _ _ _ _ hne, FS.read_write_ne _ _ _ _ hne]
  · right
    have htake : (DataCache.setOps c tmpPath key data).take (k + 1 + 1 + 1) =
        DataCache.setOps c tmpPath key data := by
      apply List.take_of_length_le
      simp [DataCache.setOps]
    unfold DataCache.set_crash
    rw [htake]
    have h3 : FS.applyOps fs (DataCache.setOps c tmpPath key data) =
        ((fs.write tmpPath (.raw "")).write tmpPath (.json data)).move
          tmpPath (c.filePath key) := rfl
    rw [h3]
    have hmv : ((fs.write tmpPath (.raw "")).write tmpPath (.json data)).move
        tmpPath (c.filePath key) =
        (((fs.write tmpPath (.raw "")).write tmpPath (.json data)).erase
          tmpPath).write (c.filePath key) (.json data) := by
      unfold FS.move
      rw [FS.read_write_self]
    rw [hmv]
    unfold DataCache.get
    rw [FS.read_write_self]

/-- Witness for C3 (amended): a crash right after the move installs the new
value at a concrete key on a concrete cache. -/
theorem C3_set_crash_safe_witness :
    DataCache.get ⟨"cache"⟩
      (DataCache.set_crash ⟨"cache"⟩ [] "/tmp/tmpw1zq" "season_2023"
        (.num 7) 3) "season_2023" = some (.num 7) :=
  (C3_set_crash_safe ⟨"cache"⟩ [] "/tmp/tmpw1zq" "season_2023"
    (.num 7) (by decide) 3).resolve_left
    (fun hh => Option.noConfusion hh)

/-- C3 counterexample: the temporary file of a concrete, reachable `set`
run (default `cache_dir = "cache"`, `tempfile.gettempdir() = "/tmp"`) is
created in `/tmp`, not in the directory of the final cache file, so the
claimed same-directory temporary write does not hold. -/
theorem C3_counterexample :
    (DataCache.setOps ⟨"cache"⟩ (namedTempPath "/tmp" "tmpw1zq")
      "season_2023" .null).head? =
      some (.create (namedTempPath "/tmp" "tmpw1zq")) ∧
    dirOf (namedTempPath "/tmp" "tmpw1zq") = "/tmp" ∧
    dirOf (DataCache.filePath ⟨"cache"⟩ "season_2023") = "cache" ∧
    ¬ dirOf (namedTempPath "/tmp" "tmpw1zq") =
      dirOf (DataCache.filePath ⟨"cache"⟩ "season_2023") := by
  exact ⟨rfl, rfl, rfl, by decide⟩

/-- C10 (amended): every failure inside `DataCache.set` is absorbed (the
run always ends in a state, never an exception) and leaves the value
observable through `get(key)` exactly as before the call; but the
temporary file is only cleaned up when the failure strikes the
`shutil.move` step — a failure while creating the temporary file leaves
the file system untouched, and a failure while serializing into it leaks
the temporary file, because the cleanup is guarded by
`'temp_name' in locals()` and `temp_name` is only assigned after
`json.dump` returns. -/
theorem C10_set_failure (c : DataCache) (fs : FS) (tmpPath key : String)
    (data : JValue) (hne : ¬ tmpPath = c.filePath key) (i : Nat)
    (hi : i < 3) :
    c.get (c.set_run fs tmpPath key data (some ⟨i, hi⟩)) key = c.get fs key ∧
    (i = 0 → c.set_run fs tmpPath key data (some ⟨i, hi⟩) = fs) ∧
    (i = 1 → FS.fileExists
      (c.set_run fs tmpPath key data (some ⟨i, hi⟩)) tmpPath = true) ∧
    (i = 2 → FS.fileExists
      (c.set_run fs tmpPath key data (some ⟨i, hi⟩)) tmpPath = false) := by
  rcases i with _ | _ | _ | i
  · exact ⟨rfl, fun _ => rfl, fun h => by omega, fun h => by omega⟩
  · have hrun : c.set_run fs tmpPath key data (some ⟨1, hi⟩) =
        fs.write tmpPath (.raw "") := rfl
    rw [hrun]
    refine ⟨?_, fun h => by omega, fun _ => ?_, fun h => by omega⟩
    · unfold DataCache.get
      rw [FS.read_write_ne _ _ _ _ hne]
    · unfold FS.fileExists
      rw [FS.read_write_self]
      rfl
  · have hrun : c.set_run fs tmpPath key data (some ⟨2, hi⟩) =
        ((fs.write tmpPath (.raw "")).write tmpPath (.json data)).erase
          tmpPath := rfl
    rw [hrun]
    refine ⟨?_, fun h => by omega, fun h => by omega, fun _ => ?_⟩
    · unfold DataCache.get
      rw [FS.read_erase_ne _ _ _ hne, FS.read_write_ne _ _ _ _ hne,
        FS.read_write_ne _ _ _ _ hne]
    · unfold FS.fileExists
      rw [FS.read_erase_self]
      rfl
  · omega

/-- Witness for C10 (amended) at a concrete cache: a failure during `set`
leaves the value observable through `get` unchanged. -/
theorem C10_set_failure_witness :
    DataCache.get ⟨"cache"⟩
      (DataCache.set_run ⟨"cache"⟩ [] "/tmp/tmpq221" "k" (.num 1)
        (some ⟨1, by omega⟩)) "k" = none :=
  (C10_set_failure ⟨"cache"⟩ [] "/tmp/tmpq221" "k" (.num 1) (by decide)
    1 (by omega)).1

/-- C10 counterexample: on a concrete cache, a failure in `json.dump`
(step 1 of the run) leaves the temporary file existing afterwards — the
claimed unconditional cleanup of the temporary file does not happen. -/
theorem C10_counterexample :
    FS.fileExists (DataCache.set_run ⟨"cache"⟩ [] "/tmp/tmpq222" "k" (.num 1)
      (some ⟨1, by omega⟩)) "/tmp/tmpq222" = true ∧
    DataCache.get ⟨"cache"⟩
      (DataCache.set_run ⟨"cache"⟩ [] "/tmp/tmpq222" "k" (.num 1)
        (some ⟨1, by omega⟩)) "k" = none := by
  exact ⟨rfl, rfl⟩

theorem FS.read_filter (fs : FS) (f : String → Bool) (q : String)
    (hq : f q = true) :
    FS.read (fs.filter fun e => f e.1) q = FS.read fs q := by
  induction fs with
  | nil => rfl
  | cons e rest ih =>
    obtain ⟨ep, ec⟩ := e
    rw [List.filter_cons]
    by_cases he : ep = q
    · rw [show f (ep, ec).1 = true by rw [show (ep, ec).1 = ep from rfl, he]; exact hq]
      simp [FS.read, he]
    · by_cases hf : f (ep, ec).1 <;> simp [hf, FS.read, he] <;> exact ih

theorem FS.read_filter_none (fs : FS) (f : String → Bool) (q : String)
    (hq : f q = false) :
    FS.read (fs.filter fun e => f e.1) q = none := by
  induction fs with
  | nil => rfl
  | cons e rest ih =>
    obtain ⟨ep, ec⟩ := e
    rw [List.filter_cons]
    by_cases he : ep = q
    · rw [show f (ep, ec).1 = false by rw [show (ep, ec).1 = ep from rfl, he]; exact hq]
      simpa using ih
    · by_cases hf : f (ep, ec).1 <;> simp [hf, FS.read, he] <;> exact ih

theorem DataCache.get_congr (c : DataCache) (fs1 fs2 : FS) (key : String)
    (h : FS.read fs1 (c.filePath key) = FS.read fs2 (c.filePath key)) :
    c.get fs1 key = c.get fs2 key := by
  unfold DataCache.get
  rw [h]

theorem DataCache.get_eq_none (c : DataCache) (fs1 : FS) (key : String)
    (h : FS.read fs1 (c.filePath key) = none) :
    c.get fs1 key = none := by
  unfold DataCache.get
  rw [h]

/-- C8 (amended): `DataCache.clear` unlinks exactly the files of the cache
directory selected by the glob — `{pattern}.json` with a pattern, `*.json`
without — and no others: an entry survives iff it was present and not
selected, a selected key reads as absent afterwards, an unselected key
reads as before; the number of removed entries is computed and logged but
the method returns `None`, not the count. -/
theorem C8_clear (c : DataCache) (fs : FS) (pattern : Option String) :
    ((c.clear fs pattern).2 = none) ∧
    (∀ p fc, (p, fc) ∈ (c.clear fs pattern).1 ↔
      ((p, fc) ∈ fs ∧ c.clearSelects pattern p = false)) ∧
    (∀ key, c.clearSelects pattern (c.filePath key) = false →
      c.get (c.clear fs pattern).1 key = c.get fs key) ∧
    (∀ key, c.clearSelects pattern (c.filePath key) = true →
      c.get (c.clear fs pattern).1 key = none) ∧
    ((c.clear fs pattern).1.length + c.clear_removed_count fs pattern =
      fs.length) := by
  refine ⟨rfl, ?_, ?_, ?_, ?_⟩
  · intro p fc
    simp [DataCache.clear, List.mem_filter]
  · intro key hsel
    exact DataCache.get_congr c _ fs key
      (FS.read_filter fs (fun p => !c.clearSelects pattern p)
        (c.filePath key) (by simp [hsel]))
  · intro key hsel
    exact DataCache.get_eq_none c _ key
      (FS.read_filter_none fs (fun p => !c.clearSelects pattern p)
        (c.filePath key) (by simp [hsel]))
  · show (fs.filter fun e => !c.clearSelects pattern e.1).length +
      (fs.filter fun e => c.clearSelects pattern e.1).length = fs.length
    induction fs with
    | nil => rfl
    | cons e rest ih =>
      by_cases he : c.clearSelects pattern e.1 <;>
        simp [List.filter_cons, he] <;> omega

/-- Witness for C8 (amended): with a two-entry cache and the glob pattern
`season_*`, the season entry reads as absent after the clear while the
race entry is untouched. -/
theorem C8_clear_witness :
    DataCache.get ⟨"cache"⟩
      (DataCache.clear ⟨"cache"⟩
        [("cache/season_2023.json", .json (.num 1)),
         ("cache/race_2023_1.json", .json (.num 2))] (some "season_*")).1
      "season_2023" = none ∧
    DataCache.get ⟨"cache"⟩
      (DataCache.clear ⟨"cache"⟩
        [("cache/season_2023.json", .json (.num 1)),
         ("cache/race_2023_1.json", .json (.num 2))] (some "season_*")).1
      "race_2023_1" = some (.num 2) := by
  constructor
  · exact (C8_clear ⟨"cache"⟩
      [("cache/season_2023.json", .json (.num 1)),
       ("cache/race_2023_1.json", .json (.num 2))]
      (some "season_*")).2.2.2.1 "season_2023" rfl
  · rw [(C8_clear ⟨"cache"⟩
      [("cache/season_2023.json", .json (.num 1)),
       ("cache/race_2023_1.json", .json (.num 2))]
      (some "season_*")).2.2.1 "race_2023_1" rfl]
    rfl

/-- C8 counterexample: clearing a one-entry cache removes that entry
(count 1 is computed and logged) but the call returns `None`, not the
number of entries removed. -/
theorem C8_counterexample :
    (DataCache.clear ⟨"cache"⟩ [("cache/a.json", .json .null)] none).2 =
      none ∧
    DataCache.clear_removed_count ⟨"cache"⟩
      [("cache/a.json", .json .null)] none = 1 ∧
    ¬ (DataCache.clear ⟨"cache"⟩ [("cache/a.json", .json .null)] none).2 =
      some (DataCache.clear_removed_count ⟨"cache"⟩
        [("cache/a.json", .json .null)] none) := by
  refine ⟨rfl, rfl, fun h => ?_⟩
  exact Option.noConfusion h

/-! ## The weather client -/

theorem extract_race_hour_data_eq (resp hd : JValue)
    (hhd : pySubscriptStr resp "hourly" = some hd) :
    extract_race_hour_data resp =
      (hourlyAt hd "temperature_2m").bind fun t =>
      (hourlyAt hd "relative_humidity_2m").bind fun h =>
      (hourlyAt hd "wind_speed_10m").bind fun ws =>
      (hourlyAt hd "wind_direction_10m").bind fun wd =>
      (hourlyAt hd "precipitation").bind fun p =>
      (hourlyAt hd "surface_pressure").bind fun pr =>
      some ⟨t, h, ws, wd, p, pr⟩ := by
  simp [extract_race_hour_data, hhd]

theorem hourlyAt_eq_none (hd : JValue) (f : String)
    (h : pySubscriptStr hd f = none ∨
      ∃ sf, pySubscriptStr hd f = some (.arr sf) ∧ sf.length < 15) :
    hourlyAt hd f = none := by
  rcases h with h | ⟨sf, hsf, hlen⟩
  · simp [hourlyAt, h]
  · simp [hourlyAt, hsf, pySubscriptIdx, race_hour]
    omega

theorem extract_none_of_field_bad (resp hd : JValue) (f : String)
    (hhd : pySubscriptStr resp "hourly" = some hd)
    (hf : f ∈ weather_hourly_fields)
    (hbad : pySubscriptStr hd f = none ∨
      ∃ sf, pySubscriptStr hd f = some (.arr sf) ∧ sf.length < 15) :
    extract_race_hour_data resp = none := by
  have hnone := hourlyAt_eq_none hd f hbad
  rw [extract_race_hour_data_eq resp hd hhd]
  simp [weather_hourly_fields] at hf
  rcases hf with rfl | rfl | rfl | rfl | rfl | rfl
  · simp [hnone]
  · cases hourlyAt hd "temperature_2m" <;> simp [hnone]
  · cases hourlyAt hd "temperature_2m" <;>
      cases hourlyAt hd "relative_humidity_2m" <;>
      cases hourlyAt hd "wind_speed_10m" <;>
      cases hourlyAt hd "wind_direction_10m" <;> simp [hnone]
  · cases hourlyAt hd "temperature_2m" <;>
      cases hourlyAt hd "relative_humidity_2m" <;> simp [hnone]
  · cases hourlyAt hd "temperature_2m" <;>
      cases hourlyAt hd "relative_humidity_2m" <;>
      cases hourlyAt hd "wind_speed_10m" <;> simp [hnone]
  · cases hourlyAt hd "temperature_2m" <;>
      cases hourlyAt hd "relative_humidity_2m" <;>
      cases hourlyAt hd "wind_speed_10m" <;>
      cases hourlyAt hd "wind_direction_10m" <;>
      cases hourlyAt hd "precipitation" <;> simp [hnone]

/-- C6: `get_weather_data(lat, lon, date)` queries the inclusive day range
[date, date + 1 day] with the six hourly series; when the response holds an
`hourly` map whose six expected series each have a value at index 14 (the
race-hour index, so length at least 15), the call returns the flat record
of exactly those six index-14 values; when any expected series is missing
or shorter than 15 entries, the call fails with `APIError`. -/
theorem C6_get_weather_data (api : OpenMeteoAPI)
    (transport : WeatherParams → Nat → Except NetErr JValue)
    (lat lon : ℚ) (date : Int) :
    ((api.get_weather_data transport lat lon date).1 =
      ⟨lat, lon, date, date + 1, weather_hourly_fields⟩) ∧
    (∀ resp hd st sh sws swd sp spr vt vh vws vwd vp vpr,
      (runRetry api_call_retry_policy
        (transport (weather_params lat lon date))).result = Except.ok resp →
      pySubscriptStr resp "hourly" = some hd →
      pySubscriptStr hd "temperature_2m" = some (.arr st) →
      pySubscriptStr hd "relative_humidity_2m" = some (.arr sh) →
      pySubscriptStr hd "wind_speed_10m" = some (.arr sws) →
      pySubscriptStr hd "wind_direction_10m" = some (.arr swd) →
      pySubscriptStr hd "precipitation" = some (.arr sp) →
      pySubscriptStr hd "surface_pressure" = some (.arr spr) →
      st.get? 14 = some vt → sh.get? 14 = some vh → sws.get? 14 = some vws →
      swd.get? 14 = some vwd → sp.get? 14 = some vp → spr.get? 14 = some vpr →
      (api.get_weather_data transport lat lon date).2.2 =
        Except.ok ⟨vt, vh, vws, vwd, vp, vpr⟩) ∧
    (∀ resp hd,
      (runRetry api_call_retry_policy
        (transport (weather_params lat lon date))).result = Except.ok resp →
      pySubscriptStr resp "hourly" = some hd →
      (∃ f ∈ weather_hourly_fields, pySubscriptStr hd f = none ∨
        ∃ sf, pySubscriptStr hd f = some (.arr sf) ∧ sf.length < 15) →
      ∃ msg, (api.get_weather_data transport lat lon date).2.2 =
        Except.error (APIErr.mk msg)) := by
  refine ⟨rfl, ?_, ?_⟩
  · intro resp hd st sh sws swd sp spr vt vh vws vwd vp vpr hresp hhd
      ht hh hws hwd hp hpr gt gh gws gwd gp gpr
    simp only [OpenMeteoAPI.get_weather_data, hresp]
    rw [extract_race_hour_data_eq resp hd hhd]
    simp only [List.get?_eq_getElem?] at gt gh gws gwd gp gpr
    simp [hourlyAt, ht, hh, hws, hwd, hp, hpr, pySubscriptIdx, race_hour,
      gt, gh, gws, gwd, gp, gpr]
  · intro resp hd hresp hhd ⟨f, hf, hbad⟩
    refine ⟨"weather extraction failed", ?_⟩
    simp only [OpenMeteoAPI.get_weather_data, hresp]
    rw [extract_none_of_field_bad resp hd f hhd hf hbad]

/-- Witness for C6 at the 24-entry fixture: every series holds 0..23, and
the extracted record is the sextuple of index-14 values. -/
theorem C6_get_weather_data_witness :
    ((OpenMeteoAPI.mk "om" 3 2 4 30).get_weather_data
      (fun _ _ => Except.ok weather_fixture) 1 2 100).2.2 =
      Except.ok ⟨.num 14, .num 14, .num 14, .num 14, .num 14, .num 14⟩ :=
  (C6_get_weather_data (OpenMeteoAPI.mk "om" 3 2 4 30)
    (fun _ _ => Except.ok weather_fixture) 1 2 100).2.1
    weather_fixture
    (.obj (weather_hourly_fields.map fun f =>
      (f, .arr ((List.range 24).map fun i => JValue.num i))))
    ((List.range 24).map fun i => JValue.num i)
    ((List.range 24).map fun i => JValue.num i)
    ((List.range 24).map fun i => JValue.num i)
    ((List.range 24).map fun i => JValue.num i)
    ((List.range 24).map fun i => JValue.num i)
    ((List.range 24).map fun i => JValue.num i)
    (.num 14) (.num 14) (.num 14) (.num 14) (.num 14) (.num 14)
    rfl rfl rfl rfl rfl rfl rfl rfl
    (by rfl) (by rfl) (by rfl) (by rfl) (by rfl) (by rfl)

/-! ## The season client and the cache (C1) -/

/-- C1 (amended): `get_season_data(year)` builds the endpoint
`{base_url}/{year}.json` and fetches it through the retrying client on
every call; a response carrying the MRData/RaceTable envelope is returned
unmodified, any other outcome becomes `APIError`; and the call performs no
cache access at all — the file system holding the cache passes through
unchanged, so no `season_{year}` entry is written. -/
theorem C1_get_season_no_cache (api : ErgastAPI)
    (transport : Nat → Except NetErr JValue) (year : Int) (fs : FS)
    (cache : DataCache) (key : String) :
    (∀ v, (runRetry api_call_retry_policy transport).result = Except.ok v →
      season_shape_ok v = true →
      (get_season_data_system api transport year fs).1.2 = Except.ok v) ∧
    (∀ v, (runRetry api_call_retry_policy transport).result = Except.ok v →
      season_shape_ok v = false →
      ∃ msg, (get_season_data_system api transport year fs).1.2 =
        Except.error (APIErr.mk msg)) ∧
    (get_season_data_system api transport year fs).2 = fs ∧
    cache.get (get_season_data_system api transport year fs).2 key =
      cache.get fs key ∧
    api.season_url year = api.base_url ++ "/" ++ toString year ++ ".json" := by
  refine ⟨?_, ?_, rfl, rfl, rfl⟩
  · intro v hv hshape
    simp [get_season_data_system, ErgastAPI.get_season_data,
      ErgastAPI.api_call_with_retry, hv, hshape]
  · intro v hv hshape
    refine ⟨"invalid season data format", ?_⟩
    simp [get_season_data_system, ErgastAPI.get_season_data,
      ErgastAPI.api_call_with_retry, hv, hshape]

/-- Witness for C1 (amended) on the two-race season fixture: the call
returns the fixture unmodified and leaves an empty file system empty. -/
theorem C1_get_season_no_cache_witness :
    (get_season_data_system ⟨"http base", 3, 2, 4, 30⟩
      (fun _ => Except.ok season_fixture) 2023 ([] : FS)).1.2 =
      Except.ok season_fixture :=
  (C1_get_season_no_cache ⟨"http base", 3, 2, 4, 30⟩
    (fun _ => Except.ok season_fixture) 2023 ([] : FS) ⟨"cache"⟩
    "season_2023").1 season_fixture rfl rfl

/-- C1 counterexample: run `get_season_data(2023)` with an empty cache
directory and a transport that succeeds at the first attempt with the
two-race fixture.  The call succeeds and returns the fixture, a network
attempt is made, yet afterwards the cache still has no `season_2023`
entry — and pre-seeding the cache does not prevent the network attempt
either — contradicting the claimed cache-first, store-on-miss behavior. -/
theorem C1_counterexample :
    ((get_season_data_system ⟨"http base", 3, 2, 4, 30⟩
        (fun _ => Except.ok season_fixture) 2023 ([] : FS)).1.2 =
      Except.ok season_fixture) ∧
    ((get_season_data_system ⟨"http base", 3, 2, 4, 30⟩
        (fun _ => Except.ok season_fixture) 2023 ([] : FS)).1.1.attempts = 1) ∧
    (DataCache.get ⟨"cache"⟩
      (get_season_data_system ⟨"http base", 3, 2, 4, 30⟩
        (fun _ => Except.ok season_fixture) 2023 ([] : FS)).2
      "season_2023" = none) ∧
    ((get_season_data_system ⟨"http base", 3, 2, 4, 30⟩
        (fun _ => Except.ok season_fixture) 2023
        [(DataCache.filePath ⟨"cache"⟩ "season_2023", .json (.num 0))]).1.1.attempts
      = 1) := by
  exact ⟨rfl, rfl, rfl, rfl⟩

end F1
